import Mathlib

/-!
Verification development for the BuildOnX / HeyClaude build-orchestration
pipeline.  The Python sources under `apps/api` and `apps/worker` are embedded
shallowly: pure helpers become Lean functions over `List Char`, the regex
patterns of the content moderator become a small backtracking matcher that
mirrors Python's `re.search` semantics for the constructs those patterns use,
`json.loads` becomes a fuel-bounded recursive-descent parser, and the stateful
entry points (worker `handle_mention`, webhook `process_mention_build`, the
`refine` route, the cleanup sweep, the rate-limit middleware) become explicit
state-passing functions whose external effects (AI calls, deployments, tweet
replies) are supplied as oracle inputs and recorded in the state.
-/

set_option maxRecDepth 40000

/-- Strings are modelled as lists of characters so that every operation is a
structurally recursive, kernel-reducible function. -/
abbrev Str := List Char

/-- Python `str.lower()` (ASCII range, which covers every pattern and input
used by the moderator). -/
def lowerStr (s : Str) : Str := s.map Char.toLower

/-- `b` starts with `a` (Python `startswith` / prefix test). -/
def strStarts : Str → Str → Bool
  | a :: as, b :: bs => if a == b then strStarts as bs else false
  | _ :: _, [] => false
  | [], _ => true

/-- Index of the first occurrence of `pat` in `s`, scanning left to right. -/
def findSubAux : Str → Str → Nat → Option Nat
  | _, [], _ => none
  | pat, s@(_ :: rest), i =>
    if strStarts pat s then some i else findSubAux pat rest (i + 1)

/-- Python `s.find(pat)` as an `Option` (the `-1` convention is applied at
call sites that need it). -/
def findSub (s pat : Str) : Option Nat :=
  if pat.isEmpty then some 0 else findSubAux pat s 0

/-- Python `pat in s`. -/
def containsSub (s pat : Str) : Bool := (findSub s pat).isSome

/-- Index of the last occurrence of `pat` in `s` (Python `s.rfind(pat)`). -/
def rfindSubAux : Str → Str → Nat → Option Nat → Option Nat
  | _, [], _, acc => acc
  | pat, s@(_ :: rest), i, acc =>
    rfindSubAux pat rest (i + 1) (if strStarts pat s then some i else acc)

def rfindSub (s pat : Str) : Option Nat := rfindSubAux pat s 0 none

/-- The ASCII whitespace `str.strip()` removes: space, tab, newline, CR, FF,
VT (the inputs of this pipeline are ASCII). -/
def isPyWs (c : Char) : Bool :=
  c == ' ' || c == '\t' || c == '\n' || c == '\x0d' || c == '\x0c' || c == '\x0b'

def dropLeadWs (s : Str) : Str := s.dropWhile isPyWs

/-- Python `str.strip()`. -/
def pyStrip (s : Str) : Str := ((dropLeadWs s).reverse.dropWhile isPyWs).reverse

/-- Python `s.split(sep)` for a non-empty separator; fuel-based so that the
function is structurally recursive and kernel-reducible (each step consumes at
least one character, so `s.length + 1` fuel always suffices). -/
def splitOnSubAux : Nat → Str → Str → Str → List Str
  | 0, s, _, cur => [cur.reverse ++ s]
  | _ + 1, [], _, cur => [cur.reverse]
  | fuel + 1, s@(c :: rest), sep, cur =>
    if strStarts sep s then
      cur.reverse :: splitOnSubAux fuel (s.drop sep.length) sep []
    else
      splitOnSubAux fuel rest sep (c :: cur)

def splitOnSub (s sep : Str) : List Str :=
  if sep.isEmpty then [s] else splitOnSubAux (s.length + 1) s sep []

/-- Python slice `s[a:b]` for non-negative bounds. -/
def pySlice (s : Str) (a b : Nat) : Str := (s.drop a).take (b - a)

/-- Python `s[:n]`. -/
def takeN (s : Str) (n : Nat) : Str := s.take n

/-!
## A small regex matcher

The moderator and the response parser use `re.search` with a fixed set of
patterns.  The constructs appearing in those patterns are: literal text,
`.` (any char except newline), `[\s\S]`, `\s`, `\w`, `[...]`/`[^...]`
character sets, concatenation, alternation `|`, greedy `*`/`+`/`?`, the lazy
star `*?`, one capturing group, and one negative lookahead `(?!...)`.  The
matcher below implements exactly Python's backtracking semantics for these
constructs (leftmost start position; at a given position, greedy operators
try the longer match first, lazy ones the shorter, alternatives left to
right).  It is written in continuation-passing style with a fuel argument so
that it is structurally recursive on the fuel; every recursive step either
descends into a strictly smaller sub-pattern or consumes input, so the fuel
computed by `reFuel` is never exhausted for the patterns in this file.
-/

inductive CharCls where
  | one (c : Char)
  | anyNoNL
  | anyAll
  | space
  | word
  | set (cs : List Char)
  | nset (cs : List Char)
deriving Repr

/-- Character-class membership; `ci` selects Python's `re.IGNORECASE`. -/
def clsMatch (ci : Bool) (cl : CharCls) (c : Char) : Bool :=
  let ceq : Char → Char → Bool := fun a b =>
    a == b || (ci && (a.toLower == b.toLower))
  match cl with
  | .one d => ceq d c
  | .anyNoNL => c != '\n'
  | .anyAll => true
  | .space => isPyWs c
  | .word =>
      ('a' ≤ c && c ≤ 'z') || ('A' ≤ c && c ≤ 'Z') ||
      ('0' ≤ c && c ≤ '9') || c == '_'
  | .set cs => cs.any (ceq · c)
  | .nset cs => !(cs.any (ceq · c))

inductive RE where
  | lit (s : Str)
  | cls (c : CharCls)
  | cat (a b : RE)
  | alt (a b : RE)
  | star (a : RE)
  | starL (a : RE)
  | plus (a : RE)
  | opt (a : RE)
  | grp (a : RE)
  | nla (a : RE)
deriving Repr

/-- A match result: the end position of the whole match and the span of the
capturing group, when one was traversed. -/
abbrev MRes := Option (Nat × Option (Nat × Nat))

/-- Consume a literal prefix, returning the rest and its length. -/
def stripLit (ci : Bool) : Str → Str → Option Str
  | [], s => some s
  | _ :: _, [] => none
  | a :: as, b :: bs =>
    if a == b || (ci && (a.toLower == b.toLower)) then stripLit ci as bs else none

/-- The backtracking matcher.  `s` is the suffix of the subject starting at
absolute position `i`; `g` is the group span recorded so far; `k` is the
continuation for the rest of the pattern. -/
def reMat (ci : Bool) :
    Nat → RE → Str → Nat → Option (Nat × Nat) →
    (Str → Nat → Option (Nat × Nat) → MRes) → MRes
  | 0, _, _, _, _, _ => none
  | _ + 1, .lit l, s, i, g, k =>
    match stripLit ci l s with
    | some rest => k rest (i + l.length) g
    | none => none
  | _ + 1, .cls c, s, i, g, k =>
    match s with
    | [] => none
    | ch :: rest => if clsMatch ci c ch then k rest (i + 1) g else none
  | fuel + 1, .cat a b, s, i, g, k =>
    reMat ci fuel a s i g (fun s2 i2 g2 => reMat ci fuel b s2 i2 g2 k)
  | fuel + 1, .alt a b, s, i, g, k =>
    reMat ci fuel a s i g k <|> reMat ci fuel b s i g k
  | fuel + 1, .star a, s, i, g, k =>
    reMat ci fuel a s i g
      (fun s2 i2 g2 =>
        if i2 == i then none else reMat ci fuel (.star a) s2 i2 g2 k) <|>
    k s i g
  | fuel + 1, .starL a, s, i, g, k =>
    k s i g <|>
    reMat ci fuel a s i g
      (fun s2 i2 g2 =>
        if i2 == i then none else reMat ci fuel (.starL a) s2 i2 g2 k)
  | fuel + 1, .plus a, s, i, g, k =>
    reMat ci fuel a s i g (fun s2 i2 g2 => reMat ci fuel (.star a) s2 i2 g2 k)
  | fuel + 1, .opt a, s, i, g, k =>
    reMat ci fuel a s i g k <|> k s i g
  | fuel + 1, .grp a, s, i, g, k =>
    reMat ci fuel a s i g (fun s2 i2 _ => k s2 i2 (some (i, i2)))
  | fuel + 1, .nla a, s, i, g, k =>
    match reMat ci fuel a s i g (fun _ i2 _ => some (i2, none)) with
    | some _ => none
    | none => k s i g

/-- Pattern size, used to compute a sufficient fuel. -/
def reSize : RE → Nat
  | .lit _ => 1
  | .cls _ => 1
  | .cat a b => reSize a + reSize b + 1
  | .alt a b => reSize a + reSize b + 1
  | .star a => reSize a + 1
  | .starL a => reSize a + 1
  | .plus a => reSize a + 2
  | .opt a => reSize a + 1
  | .grp a => reSize a + 1
  | .nla a => reSize a + 1

def reFuel (r : RE) (s : Str) : Nat := (reSize r + 2) * (s.length + 2)

/-- Try to match `r` at every start position, leftmost first: the semantics
of Python's `re.search`.  Returns the group-1 span of the first match. -/
def reSearchFrom (ci : Bool) (r : RE) : Str → Nat → Nat → MRes
  | s, i, fuel =>
    (reMat ci fuel r s i none (fun _ i2 g => some (i2, g))) <|>
    (match s with
     | [] => none
     | _ :: rest => reSearchFrom ci r rest (i + 1) fuel)

/-- Python `re.search(r, s) is not None`. -/
def reSearch (ci : Bool) (r : RE) (s : Str) : Bool :=
  (reSearchFrom ci r s 0 (reFuel r s)).isSome

/-- Python `m.group(1)` of the first match, as a substring of `s`. -/
def reSearchGroup (ci : Bool) (r : RE) (s : Str) : Option Str :=
  match reSearchFrom ci r s 0 (reFuel r s) with
  | some (_, some (a, b)) => some (pySlice s a b)
  | _ => none

/-- Number of non-overlapping matches, scanning left to right: the length of
Python's `re.findall(r, s)` for group-free patterns. -/
def reCountAux (ci : Bool) (r : RE) : Nat → Str → Nat → Nat
  | 0, _, _ => 0
  | fuel + 1, s, i =>
    match reMat ci (reFuel r s) r s i none (fun _ i2 g => some (i2, g)) with
    | some (e, _) =>
      if e > i then 1 + reCountAux ci r fuel (s.drop (e - i)) e
      else
        match s with
        | [] => 1
        | _ :: rest => 1 + reCountAux ci r fuel rest (i + 1)
    | none =>
      match s with
      | [] => 0
      | _ :: rest => reCountAux ci r fuel rest (i + 1)

def reCount (ci : Bool) (r : RE) (s : Str) : Nat :=
  reCountAux ci r (s.length + 1) s 0

/-- Helpers for transcribing the Python pattern strings. -/
def rLit (s : String) : RE := .lit s.toList

def rCat : List RE → RE
  | [] => .lit []
  | [r] => r
  | r :: rs => .cat r (rCat rs)

def rAlt : List RE → RE
  | [] => .lit []
  | [r] => r
  | r :: rs => .alt r (rAlt rs)

/-- `\s+` -/
def sp1 : RE := .plus (.cls .space)

/-- `\s*` -/
def sp0 : RE := .star (.cls .space)

/-- `.*` (no DOTALL: stops at newlines, as in the Python source). -/
def dotStar : RE := .star (.cls .anyNoNL)

/-!
## `app/services/moderator.py` — `ContentModerator`

Each Python pattern string is transcribed into the `RE` AST.  The API
moderator lowercases the prompt before searching (and passes `re.IGNORECASE`,
which is inert because every prompt pattern is already lowercase); the code
checker searches the raw file content with `re.IGNORECASE`.
-/

/-- `ModerationResult` dataclass. -/
structure ModerationResult where
  allowed : Bool
  reason : Option Str := none
  flags : List Str := []
deriving Repr

def INJECTION_PATTERNS : List RE := [
  rCat [rLit "ignore", sp1, rAlt [rLit "previous", rLit "above", rLit "all"], sp1,
        rAlt [rCat [rLit "instruction", .opt (rLit "s")],
              rCat [rLit "prompt", .opt (rLit "s")]]],
  rCat [rLit "disregard", sp1, rAlt [rLit "your", rLit "the"], sp1,
        rAlt [rLit "rules", rLit "guidelines", rLit "instructions"]],
  rCat [rLit "you", sp1, rLit "are", sp1, rLit "now", sp1],
  rCat [rLit "pretend", sp1,
        rAlt [rLit "you\x27re", rCat [rLit "you", sp1, rLit "are"],
              rCat [rLit "to", sp1, rLit "be"]]],
  rCat [rLit "act", sp1, rLit "as", sp1, rAlt [rLit "if", rLit "though"]],
  rCat [rLit "system", sp0, rLit ":", sp0],
  rCat [rLit "<", sp0, rLit "system", sp0, rLit ">"],
  rCat [rLit "<", .opt (rLit "/"), sp0, rLit "prompt", sp0, rLit ">"],
  rCat [rLit "forget", sp1, rAlt [rLit "everything", rLit "all", rLit "your"]],
  rCat [rLit "new", sp1, rLit "personality"],
  rLit "jailbreak",
  rCat [rLit "dan", sp1, rLit "mode"]]

def DANGEROUS_PATTERNS : List RE := [
  rCat [rAlt [rLit "crypto", rLit "bitcoin", rLit "monero"], sp0,
        rAlt [rLit "miner", rLit "mining"]],
  rCat [rLit "keylog", rAlt [rLit "ger", rLit "ging"]],
  rLit "ransomware",
  rLit "malware",
  rLit "botnet",
  rCat [rLit "reverse", sp0, rLit "shell"],
  rCat [rLit "shell", sp0, rLit "code"],
  rCat [rLit "exploit", sp0, rAlt [rLit "kit", rLit "code"]],
  rLit "phishing",
  rCat [rLit "credential", sp0, rAlt [rLit "steal", rLit "harvest", rLit "capture"]],
  rCat [rAlt [rLit "fake", rLit "clone", rLit "replica"], dotStar,
        rAlt [rLit "login", rLit "signin", rLit "sign-in"]],
  rCat [rAlt [rLit "fake", rLit "clone", rLit "replica"], dotStar,
        rAlt [rLit "paypal", rLit "stripe", rLit "venmo", rLit "cashapp", rLit "zelle"]],
  rCat [rAlt [rLit "fake", rLit "clone", rLit "replica"], dotStar,
        rAlt [rLit "google", rLit "facebook", rLit "instagram", rLit "twitter",
              rLit "tiktok"]],
  rCat [rAlt [rLit "fake", rLit "clone", rLit "replica"], dotStar,
        rAlt [rLit "bank", rLit "chase", rLit "wellsfargo", rLit "bofa", rLit "citi"]],
  rCat [rAlt [rLit "fake", rLit "clone", rLit "replica"], dotStar,
        rAlt [rLit "amazon", rLit "apple", rLit "microsoft"]],
  rCat [rLit "password", sp0, rAlt [rLit "harvester", rLit "stealer", rLit "grabber"]],
  rCat [rLit "credit", sp0, rLit "card", sp0,
        rAlt [rLit "skimmer", rLit "stealer", rLit "generator"]],
  rCat [rLit "ssn", sp0, rAlt [rLit "generator", rLit "stealer"]],
  rCat [rLit "identity", sp0, rLit "theft"],
  rCat [rAlt [rLit "child", rLit "cp"], sp0, rAlt [rLit "porn", rLit "exploitation"]],
  rCat [rLit "drug", sp0, rAlt [rLit "marketplace", rLit "shop", rLit "store"]],
  rCat [rLit "weapon", sp0, rAlt [rLit "shop", rLit "store", rLit "marketplace"]]]

def WARNING_PATTERNS : List RE := [
  rLit "document.cookie",
  rCat [rLit "localStorage.", rAlt [rLit "get", rLit "set"], rLit "Item"],
  rCat [rLit "eval", sp0, rLit "("],
  rCat [rLit "new", sp1, rLit "Function", sp0, rLit "("],
  rCat [rLit "innerHTML", sp0, rLit "="]]

/-- `CODE_PATTERNS`: pattern plus the human-readable description used in the
rejection reason. -/
def CODE_PATTERNS : List (RE × Str) := [
  (rCat [rLit "eval", sp0, rLit "(", sp0, rLit "atob"],
   "Obfuscated code execution".toList),
  (rCat [rLit "document.cookie", sp0, .star (.cls (.nset [';'])),
         rAlt [rLit "fetch", rLit "xhr", rLit "ajax", rLit "send"]],
   "Cookie exfiltration".toList),
  (rCat [rLit "localStorage", dotStar, rLit "password"],
   "Password access from storage".toList),
  (rLit "navigator.credentials", "Credential API access".toList),
  (rCat [rLit "formData", dotStar, rLit "password", dotStar, rLit "fetch"],
   "Password form interception".toList),
  (rCat [rLit "<iframe", .star (.cls (.nset ['>'])),
         rAlt [rCat [rLit "display:", sp0, rLit "none"],
               rCat [rLit "width:", sp0, rLit "0"],
               rCat [rLit "height:", sp0, rLit "0"]]],
   "Hidden iframe".toList),
  (rCat [rLit "<script", .star (.cls (.nset ['>'])), rLit "src=",
         .cls (.set ['\x27', '"']),
         .nla (rCat [rLit "http", .opt (rLit "s"), rLit "://",
                     rAlt [rLit "cdn", rLit "unpkg", rLit "cdnjs", rLit "jsdelivr"]])],
   "External script from unknown source".toList),
  (rAlt [rLit "coinhive", rLit "cryptoloot", rLit "minero", rLit "webminer"],
   "Cryptominer detected".toList),
  (rAlt [rCat [rLit "wasm", dotStar, rLit "mine"],
         rCat [rLit "mine", dotStar, rLit "wasm"]],
   "WebAssembly mining".toList),
  (rCat [rLit "navigator.", rAlt [rLit "userAgent", rLit "platform"], dotStar,
         rLit "fetch"],
   "Browser fingerprinting with exfil".toList),
  (rCat [rLit "new", sp1, rLit "WebSocket", dotStar, rLit "password"],
   "WebSocket credential leak".toList)]

/-- `fetch\s*\(` -/
def fetchRE : RE := rCat [rLit "fetch", sp0, rLit "("]

/-- `XMLHttpRequest|\.ajax\(` -/
def xhrRE : RE := rAlt [rLit "XMLHttpRequest", rLit ".ajax("]

def injAny (lowered : Str) : Bool :=
  INJECTION_PATTERNS.any (fun r => reSearch true r lowered)

def dangAny (lowered : Str) : Bool :=
  DANGEROUS_PATTERNS.any (fun r => reSearch true r lowered)

/-- The `WARNING_PATTERNS` loop appends one `"suspicious_keywords"` flag per
matching pattern. -/
def warningFlags (lowered : Str) : List Str :=
  WARNING_PATTERNS.filterMap
    (fun r => if reSearch true r lowered then some "suspicious_keywords".toList
              else none)

/-- `ContentModerator.check_prompt`.  The pattern loops return a fixed result
on the first match, so they are equivalent to an existence test over each
list, in order: injection first, then dangerous, then the warning pass. -/
def check_prompt (prompt : Str) : ModerationResult :=
  let lowered := lowerStr prompt
  if injAny lowered then
    { allowed := false,
      reason := some "Request contains disallowed patterns".toList,
      flags := ["injection".toList] }
  else if dangAny lowered then
    { allowed := false,
      reason := some "This type of application cannot be built".toList,
      flags := ["dangerous".toList] }
  else
    { allowed := true, reason := none, flags := warningFlags lowered }

/-!
## Python values

Generated file-sets and parsed JSON travel through the pipeline as Python
values.  `PyVal` covers the value shapes `json.loads` can produce.  Python
floats are kept as their source lexeme: no claim in this development compares
float values.
-/

inductive PyVal where
  | pnone
  | pbool (b : Bool)
  | pint (n : Int)
  | pfloat (lexeme : Str)
  | pstr (s : Str)
  | plist (xs : List PyVal)
  | pdict (kvs : List (Str × PyVal))

/-- Python `dict` lookup `d[k]` / `d.get(k)` over the association list. -/
def kvGet (kvs : List (Str × PyVal)) (k : Str) : Option PyVal :=
  match kvs.find? (fun p => p.1 == k) with
  | some p => some p.2
  | none => none

/-- Python `d[k] = v`: updates in place, or appends a new key at the end. -/
def kvSet (kvs : List (Str × PyVal)) (k : Str) (v : PyVal) : List (Str × PyVal) :=
  if kvs.any (fun p => p.1 == k) then
    kvs.map (fun p => if p.1 == k then (k, v) else p)
  else
    kvs ++ [(k, v)]

/-- `result.get(k, default)` on a value known to be a dict. -/
def pyGetD (v : PyVal) (k : Str) (dflt : PyVal) : PyVal :=
  match v with
  | .pdict kvs => (kvGet kvs k).getD dflt
  | _ => dflt

/-- `result.get(k)` returning a Python string, with a default. -/
def pyGetStr (v : PyVal) (k : Str) (dflt : Str) : Str :=
  match v with
  | .pdict kvs =>
    match kvGet kvs k with
    | some (.pstr s) => s
    | _ => dflt
  | _ => dflt

/-- `ContentModerator.check_code`.  Mirrors the Python loop: entries whose
content is not a `str` are skipped entirely (`continue`); for string content
the first matching `CODE_PATTERNS` entry aborts with `allowed=False`, and
otherwise the `fetch`/XHR occurrence counts feed the network-activity flag.
The accumulated warning flags are dropped on the rejecting return, exactly as
in the source. -/
def check_code : List (Str × PyVal) → List Str → ModerationResult
  | [], flags => { allowed := true, reason := none, flags := flags }
  | (fname, content) :: rest, flags =>
    match content with
    | .pstr text =>
      match CODE_PATTERNS.find? (fun pr => reSearch true pr.1 text) with
      | some pr =>
        { allowed := false,
          reason := some ("Generated code contains unsafe pattern: ".toList ++ pr.2),
          flags := ["malicious_code".toList, fname] }
      | none =>
        let fetch_count := reCount true fetchRE text
        let xhr_count := reCount true xhrRE text
        check_code rest
          (if fetch_count + xhr_count > 20
           then flags ++ ["high_network_activity".toList] else flags)
    | _ => check_code rest flags

/-!
## The worker's own `ContentModerator` (`apps/worker/mention_processor.py`)

The polling worker ships a smaller, independent moderator with only a prompt
check (no code check at all), and searches without `re.IGNORECASE` on the
lowercased prompt.
-/

def WORKER_DANGEROUS_PATTERNS : List RE := [
  rCat [rAlt [rLit "crypto", rLit "bitcoin"], sp0, rAlt [rLit "miner", rLit "mining"]],
  rCat [rLit "keylog", rAlt [rLit "ger", rLit "ging"]],
  rLit "phishing",
  rCat [rAlt [rLit "fake", rLit "clone"], dotStar,
        rAlt [rLit "login", rLit "signin", rLit "paypal", rLit "google",
              rLit "facebook", rLit "bank"]],
  rCat [rLit "credential", sp0, rAlt [rLit "steal", rLit "harvest"]],
  rLit "ransomware",
  rCat [rLit "reverse", sp0, rLit "shell"]]

def WORKER_INJECTION_PATTERNS : List RE := [
  rCat [rLit "ignore", sp1, rAlt [rLit "previous", rLit "above", rLit "all"], sp1,
        rAlt [rCat [rLit "instruction", .opt (rLit "s")],
              rCat [rLit "prompt", .opt (rLit "s")]]],
  rCat [rLit "you", sp1, rLit "are", sp1, rLit "now", sp1],
  rCat [rLit "pretend", sp1, rAlt [rLit "you\x27re", rCat [rLit "to", sp1, rLit "be"]]]]

/-- Worker `ContentModerator.check_prompt`, returning `(allowed, reason)`. -/
def worker_check_prompt (prompt : Str) : Bool × Str :=
  let lowered := lowerStr prompt
  if WORKER_INJECTION_PATTERNS.any (fun r => reSearch false r lowered) then
    (false, "Request contains disallowed patterns".toList)
  else if WORKER_DANGEROUS_PATTERNS.any (fun r => reSearch false r lowered) then
    (false, "This type of application cannot be built".toList)
  else
    (true, [])

/-!
## `json.loads`

A recursive-descent parser mirroring Python's `json` scanner: its whitespace
set, its number grammar, its literal constants (including `NaN`/`Infinity`),
strict rejection of raw control characters inside strings, `\uXXXX` escapes
with surrogate-pair combination, duplicate object keys resolved last-wins at
the first key's position, and the trailing "Extra data" check.  The `Nat`
fuel only bounds nesting; every recursive call follows the consumption of at
least one input character, so `2·length + 8` fuel can never run out.
-/

def jWs (c : Char) : Bool := c == ' ' || c == '\t' || c == '\n' || c == '\x0d'

def jSkip (s : Str) : Str := s.dropWhile jWs

def hexDigit (c : Char) : Option Nat :=
  let n := c.toNat
  if 48 ≤ n && n ≤ 57 then some (n - 48)
  else if 97 ≤ n && n ≤ 102 then some (n - 87)
  else if 65 ≤ n && n ≤ 70 then some (n - 55)
  else none

def parseU4 : Str → Option (Nat × Str)
  | a :: b :: c :: d :: rest =>
    match hexDigit a, hexDigit b, hexDigit c, hexDigit d with
    | some x, some y, some z, some w => some (((x * 16 + y) * 16 + z) * 16 + w, rest)
    | _, _, _, _ => none
  | _ => none

/-- Lean `Char` cannot hold a lone surrogate; `Char.ofNat` maps such a code
point to `'\x00'`.  No input in this development contains lone surrogates. -/
def jChar (n : Nat) : Char := Char.ofNat n

/-- Scan a JSON string body (after the opening quote). -/
def jStrAux : Nat → Str → Str → Option (Str × Str)
  | 0, _, _ => none
  | _ + 1, [], _ => none
  | fuel + 1, c :: rest, acc =>
    if c == '"' then some (acc.reverse, rest)
    else if c == '\\' then
      match rest with
      | [] => none
      | e :: rest2 =>
        if e == '"' then jStrAux fuel rest2 ('"' :: acc)
        else if e == '\\' then jStrAux fuel rest2 ('\\' :: acc)
        else if e == '/' then jStrAux fuel rest2 ('/' :: acc)
        else if e == 'b' then jStrAux fuel rest2 ('\x08' :: acc)
        else if e == 'f' then jStrAux fuel rest2 ('\x0c' :: acc)
        else if e == 'n' then jStrAux fuel rest2 ('\n' :: acc)
        else if e == 'r' then jStrAux fuel rest2 ('\x0d' :: acc)
        else if e == 't' then jStrAux fuel rest2 ('\t' :: acc)
        else if e == 'u' then
          match parseU4 rest2 with
          | none => none
          | some (n, rest3) =>
            if 0xd800 ≤ n && n ≤ 0xdbff then
              match rest3 with
              | '\\' :: 'u' :: rest4 =>
                match parseU4 rest4 with
                | some (n2, rest5) =>
                  if 0xdc00 ≤ n2 && n2 ≤ 0xdfff then
                    jStrAux fuel rest5
                      (jChar (0x10000 + ((n - 0xd800) * 1024 + (n2 - 0xdc00))) :: acc)
                  else jStrAux fuel rest3 (jChar n :: acc)
                | none => jStrAux fuel rest3 (jChar n :: acc)
              | _ => jStrAux fuel rest3 (jChar n :: acc)
            else jStrAux fuel rest3 (jChar n :: acc)
        else none
    else if c.toNat < 0x20 then none
    else jStrAux fuel rest (c :: acc)

def jStr (s : Str) : Option (Str × Str) := jStrAux (s.length + 1) s []

def isDigit (c : Char) : Bool := '0' ≤ c && c ≤ '9'

def digitsToNat (ds : Str) : Nat :=
  ds.foldl (fun n c => n * 10 + (c.toNat - '0'.toNat)) 0

/-- Python's `NUMBER_RE`: `(-?(?:0|[1-9]\d*))(\.\d+)?([eE][-+]?\d+)?`, with
pure-integer lexemes producing `int` and anything else `float`. -/
def parseNum (s : Str) : Option (PyVal × Str) :=
  let (sign, s1) : Str × Str :=
    match s with
    | '-' :: rest => (['-'], rest)
    | _ => ([], s)
  let ipart : Option (Str × Str) :=
    match s1 with
    | '0' :: rest => some (['0'], rest)
    | c :: rest =>
      if '1' ≤ c && c ≤ '9' then some (c :: rest.takeWhile isDigit, rest.dropWhile isDigit)
      else none
    | [] => none
  match ipart with
  | none => none
  | some (ids, s2) =>
    let (frac, s3) : Str × Str :=
      match s2 with
      | '.' :: rest =>
        if (rest.takeWhile isDigit).isEmpty then ([], s2)
        else ('.' :: rest.takeWhile isDigit, rest.dropWhile isDigit)
      | _ => ([], s2)
    let (ex, s4) : Str × Str :=
      match s3 with
      | e :: rest =>
        if e == 'e' || e == 'E' then
          let (esign, r2) : Str × Str :=
            match rest with
            | c :: r3 => if c == '+' || c == '-' then ([c], r3) else ([], rest)
            | [] => ([], rest)
          if (r2.takeWhile isDigit).isEmpty then ([], s3)
          else (e :: (esign ++ r2.takeWhile isDigit), r2.dropWhile isDigit)
        else ([], s3)
      | [] => ([], s3)
    if frac.isEmpty && ex.isEmpty then
      let n : Int := Int.ofNat (digitsToNat ids)
      some (.pint (if sign.isEmpty then n else -n), s4)
    else
      some (.pfloat (sign ++ ids ++ frac ++ ex), s4)

mutual

def jVal : Nat → Str → Option (PyVal × Str)
  | 0, _ => none
  | fuel + 1, s =>
    match s with
    | [] => none
    | '"' :: rest =>
      match jStr rest with
      | some (cs, r) => some (.pstr cs, r)
      | none => none
    | '{' :: rest =>
      match jSkip rest with
      | '}' :: r2 => some (.pdict [], r2)
      | r1 => jMembers fuel r1 []
    | '[' :: rest =>
      match jSkip rest with
      | ']' :: r2 => some (.plist [], r2)
      | r1 => jItems fuel r1 []
    | _ =>
      if strStarts "null".toList s then some (.pnone, s.drop 4)
      else if strStarts "true".toList s then some (.pbool true, s.drop 4)
      else if strStarts "false".toList s then some (.pbool false, s.drop 5)
      else
        match parseNum s with
        | some (v, r) => some (v, r)
        | none =>
          if strStarts "NaN".toList s then some (.pfloat "NaN".toList, s.drop 3)
          else if strStarts "Infinity".toList s then
            some (.pfloat "Infinity".toList, s.drop 8)
          else if strStarts "-Infinity".toList s then
            some (.pfloat "-Infinity".toList, s.drop 9)
          else none

def jMembers : Nat → Str → List (Str × PyVal) → Option (PyVal × Str)
  | 0, _, _ => none
  | fuel + 1, s, acc =>
    match s with
    | '"' :: rest =>
      match jStr rest with
      | none => none
      | some (k, r1) =>
        match jSkip r1 with
        | ':' :: r3 =>
          match jVal fuel (jSkip r3) with
          | none => none
          | some (v, r5) =>
            let acc2 := kvSet acc k v
            match jSkip r5 with
            | '}' :: r7 => some (.pdict acc2, r7)
            | ',' :: r7 => jMembers fuel (jSkip r7) acc2
            | _ => none
        | _ => none
    | _ => none

def jItems : Nat → Str → List PyVal → Option (PyVal × Str)
  | 0, _, _ => none
  | fuel + 1, s, acc =>
    match jVal fuel s with
    | none => none
    | some (v, r1) =>
      match jSkip r1 with
      | ']' :: r2 => some (.plist (acc ++ [v]).reverse.reverse, r2)
      | ',' :: r2 => jItems fuel (jSkip r2) (acc ++ [v])
      | _ => none

end

/-- `json.loads`: parse one value with surrounding whitespace and reject
trailing data. -/
def json_loads (s : Str) : Option PyVal :=
  let t := jSkip s
  match jVal (2 * t.length + 8) t with
  | some (v, rest) => if (jSkip rest).isEmpty then some v else none
  | none => none

/-!
## `app/services/builder.py` — `BuilderService`

`_parse_response` runs an ordered cascade: direct `json.loads` of the
stripped text; markdown-fence extraction; the naive first-`{`/last-`}` slice;
and finally a synthesized fallback page.  Every `json.loads` failure is
caught and falls through to the next strategy.
-/

def strategy1 (t : Str) : Option PyVal := json_loads (pyStrip t)

/-- The fence regex of strategy 2: | ```(?:\w+)?\s*([\s\S]*?)``` | (no
IGNORECASE flag on this call). -/
def fenceRE : RE :=
  rCat [rLit "```", .opt (.plus (.cls .word)), sp0, .grp (.starL (.cls .anyAll)),
        rLit "```"]

def strategy2 (t : Str) : Option PyVal :=
  if containsSub t "```json".toList then
    match splitOnSub t "```json".toList with
    | _ :: second :: _ =>
      match splitOnSub second "```".toList with
      | first :: _ => json_loads (pyStrip first)
      | [] => none
    | _ => none
  else if containsSub t "```".toList then
    match reSearchGroup false fenceRE t with
    | some g => json_loads (pyStrip g)
    | none => none
  else none

/-- Strategy 3, verbatim from the source: `start = text.find("{")`,
`end = text.rfind("}") + 1`, parse `text[start:end]` when `start != -1` and
`end > start`.  There is no brace-depth counting. -/
def strategy3 (t : Str) : Option PyVal :=
  let startI : Int := match findSub t "\x7b".toList with
    | some i => (i : Int)
    | none => -1
  let endI : Int := (match rfindSub t "\x7d".toList with
    | some i => (i : Int)
    | none => -1) + 1
  if startI != -1 && endI > startI then
    json_loads (pySlice t startI.toNat endI.toNat)
  else none

def fb_html_pre : String := "<!DOCTYPE html>
<html lang=\"en\">
<head>
    <meta charset=\"UTF-8\">
    <meta name=\"viewport\" content=\"width=device-width, initial-scale=1.0\">
    <title>Generated Project</title>
    <link href=\"https://fonts.googleapis.com/css2?family=Space+Grotesk:wght@400;700&display=swap\" rel=\"stylesheet\">
    <style>
        * \x7b box-sizing: border-box; margin: 0; padding: 0; \x7d
        body \x7b
            font-family: \x27Space Grotesk\x27, system-ui, sans-serif;
            background: #FAF8F5;
            color: #0D0D0D;
            padding: 2rem;
            line-height: 1.6;
        \x7d
        h1 \x7b
            font-size: 3rem;
            font-weight: 700;
            letter-spacing: -0.03em;
            margin-bottom: 1.5rem;
            text-transform: uppercase;
        \x7d
        .card \x7b
            background: #fff;
            border: 3px solid #000;
            box-shadow: 6px 6px 0 #000;
            padding: 1.5rem;
            margin-top: 1rem;
        \x7d
        pre \x7b
            background: #1a1a1a;
            color: #fafafa;
            padding: 1.5rem;
            overflow-x: auto;
            font-family: \x27JetBrains Mono\x27, monospace;
            font-size: 0.875rem;
        \x7d
    </style>
</head>
<body>
    <h1>Generated Project</h1>
    <div class=\"card\">
        <pre>"

def fb_html_post : String := "</pre>
    </div>
</body>
</html>"

/-- `BuilderService._create_fallback_html`: the f-string template with the
raw response text interpolated into the `<pre>` block. -/
def create_fallback_html (content : Str) : Str :=
  fb_html_pre.toList ++ content ++ fb_html_post.toList

/-- The dict literal returned when every parsing strategy has failed. -/
def fallbackResult (t : Str) : PyVal :=
  .pdict [("name".toList, .pstr "Generated Project".toList),
          ("description".toList, .pstr "AI-generated project".toList),
          ("files".toList, .pdict [("index.html".toList, .pstr (create_fallback_html t))]),
          ("entry_point".toList, .pstr "index.html".toList),
          ("tech_stack".toList, .pdict [("type".toList, .pstr "static".toList),
                                        ("features".toList, .plist [])]),
          ("refined_prompt".toList, .pstr [])]

/-- `BuilderService._parse_response`: first successful strategy wins; the
fallback makes the function total. -/
def parse_response (t : Str) : PyVal :=
  match strategy1 t with
  | some v => v
  | none =>
    match strategy2 t with
    | some v => v
    | none =>
      match strategy3 t with
      | some v => v
      | none => fallbackResult t

/-- Does a parse result carry the four keys the pipeline consumes? -/
def hasCoreKeys (v : PyVal) : Bool :=
  match v with
  | .pdict kvs =>
    (kvGet kvs "name".toList).isSome && (kvGet kvs "description".toList).isSome &&
    (kvGet kvs "files".toList).isSome && (kvGet kvs "entry_point".toList).isSome
  | _ => false

def complex_indicators : List String :=
  ["integrate", "authentication", "database", "real-time",
   "websocket", "payment", "stripe", "oauth", "api",
   "full-stack", "backend", "multiple pages", "routing"]

/-- `BuilderService._is_complex_request`. -/
def is_complex_request (prompt : Str) : Bool :=
  let pl := lowerStr prompt
  let score := (complex_indicators.filter (fun w => containsSub pl w.toList)).length
  score ≥ 2 || prompt.length > 500

/-- `BuilderService.detect_template`. -/
def detect_template (prompt : Str) : Str :=
  let pl := lowerStr prompt
  if ["dashboard", "admin", "analytics", "chart", "metrics"].any
      (fun w => containsSub pl w.toList) then "dashboard".toList
  else if ["api", "backend", "server", "endpoint", "rest"].any
      (fun w => containsSub pl w.toList) then "api-backend".toList
  else if ["react", "interactive", "component", "spa", "single page"].any
      (fun w => containsSub pl w.toList) then "react-app".toList
  else "static-site".toList

def builder_model : Str := "claude-3-5-sonnet-20241022".toList

/-- `result["tokens_used"] = …; result["ai_model"] = model` on the parsed
dict.  (In `generate_project` below, the network call is replaced by the raw
model text and the token usage it reports; the Python function raises
`ValueError` when either moderation gate rejects, and the item assignment /
`files.items()` iteration raise `TypeError`/`AttributeError` on a
wrongly-shaped parse result — all of these surface as `.error`.) -/
def gpKvs (kvs : List (Str × PyVal)) (tokens_used : Int) (model : Str) :
    List (Str × PyVal) :=
  kvSet (kvSet kvs "tokens_used".toList (.pint tokens_used)) "ai_model".toList
    (.pstr model)

/-- The output-moderation tail of `generate_project`: run `check_code` on
`result.get("files", {})` and raise unless it allows (a non-dict files value
raises inside `check_code` via `files.items()`). -/
def gpCheck (kvs2 : List (Str × PyVal)) : Except Str PyVal :=
  match (kvGet kvs2 "files".toList).getD (.pdict []) with
  | .pdict fkvs =>
    let code_check := check_code fkvs []
    if !code_check.allowed then
      .error ("Generated code blocked: ".toList ++ code_check.reason.getD [])
    else .ok (.pdict kvs2)
  | _ => .error "AttributeError: the files value is not a dict".toList

/-- The post-parse part of `generate_project` (the item assignments raise
`TypeError` on a non-dict parse result). -/
def gpAfterParse (result : PyVal) (tokens_used : Int) (model : Str) :
    Except Str PyVal :=
  match result with
  | .pdict kvs => gpCheck (gpKvs kvs tokens_used model)
  | _ => .error "TypeError: parse result does not support item assignment".toList

def generate_project (prompt : Str) (responseText : Str) (tokens_used : Int) :
    Except Str PyVal :=
  let prompt_check := check_prompt prompt
  if !prompt_check.allowed then
    .error ("Request blocked: ".toList ++ prompt_check.reason.getD [])
  else
    gpAfterParse (parse_response responseText) tokens_used
      (if is_complex_request prompt then builder_model else builder_model)

/-!
## `app/services/deployer.py` — `_prepare_files_for_machine`

The deployer base64-encodes every file value for the Fly machine config.  A
value that is not a `str` is first passed through Python's `str()`; `pyRepr`
below reproduces `repr`/`str` for the `PyVal` shapes (the `bytes` branch of
the Python code is unreachable from this pipeline, since the file maps come
from `json.loads`).  The fuel argument only bounds nesting depth.
-/

def natToStrAux : Nat → Nat → Str → Str
  | 0, _, acc => acc
  | _ + 1, 0, acc => acc
  | fuel + 1, n, acc =>
    natToStrAux fuel (n / 10) (Char.ofNat ('0'.toNat + n % 10) :: acc)

def natToStr (n : Nat) : Str :=
  if n == 0 then ['0'] else natToStrAux (n + 1) n []

def intToStr (n : Int) : Str :=
  if n < 0 then '-' :: natToStr n.natAbs else natToStr n.natAbs

/-- Python `repr` of a character inside a string literal quoted by `q`. -/
def pyReprChar (q : Char) (c : Char) : Str :=
  if c == '\\' then ['\\', '\\']
  else if c == q then ['\\', q]
  else if c == '\n' then ['\\', 'n']
  else if c == '\x0d' then ['\\', 'r']
  else if c == '\t' then ['\\', 't']
  else if c.toNat < 0x20 || c.toNat == 0x7f then
    let h := "0123456789abcdef".toList
    ['\\', 'x', h.getD (c.toNat / 16) '0', h.getD (c.toNat % 16) '0']
  else [c]

/-- Python `repr` of a string: single quotes unless the text contains a
single quote and no double quote. -/
def pyReprStr (s : Str) : Str :=
  let q : Char := if s.contains '\x27' && !(s.contains '"') then '"' else '\x27'
  q :: (s.flatMap (pyReprChar q)) ++ [q]

def joinSep (sep : Str) : List Str → Str
  | [] => []
  | [x] => x
  | x :: xs => x ++ sep ++ joinSep sep xs

/-- Python `repr` on `PyVal` (containers print their elements' `repr`). -/
def pyReprF : Nat → PyVal → Str
  | 0, _ => []
  | fuel + 1, v =>
    match v with
    | .pnone => "None".toList
    | .pbool true => "True".toList
    | .pbool false => "False".toList
    | .pint n => intToStr n
    | .pfloat lex => lex
    | .pstr s => pyReprStr s
    | .plist xs => '[' :: joinSep ", ".toList (xs.map (pyReprF fuel)) ++ [']']
    | .pdict kvs =>
      '\x7b' ::
        joinSep ", ".toList
          (kvs.map (fun p => pyReprStr p.1 ++ ": ".toList ++ pyReprF fuel p.2)) ++
        ['\x7d']

/-- Python `str()` (`repr` except on strings, which pass through). -/
def pyStr (v : PyVal) : Str :=
  match v with
  | .pstr s => s
  | v => pyReprF 100 v

def utf8Char (c : Char) : List Nat :=
  let n := c.toNat
  if n < 0x80 then [n]
  else if n < 0x800 then [0xc0 + n / 64, 0x80 + n % 64]
  else if n < 0x10000 then [0xe0 + n / 4096, 0x80 + (n / 64) % 64, 0x80 + n % 64]
  else [0xf0 + n / 262144, 0x80 + (n / 4096) % 64, 0x80 + (n / 64) % 64, 0x80 + n % 64]

def utf8Str (s : Str) : List Nat := s.flatMap utf8Char

def b64Table : Str :=
  "ABCDEFGHIJKLMNOPQRSTUVWXYZabcdefghijklmnopqrstuvwxyz0123456789+/".toList

def b64Char (n : Nat) : Char := b64Table.getD n 'A'

/-- `base64.b64encode(bytes).decode()`. -/
def b64encode : List Nat → Str
  | [] => []
  | [a] => [b64Char (a / 4), b64Char (a % 4 * 16), '=', '=']
  | [a, b] => [b64Char (a / 4), b64Char (a % 4 * 16 + b / 16), b64Char (b % 16 * 4), '=']
  | a :: b :: c :: rest =>
    b64Char (a / 4) :: b64Char (a % 4 * 16 + b / 16) ::
    b64Char (b % 16 * 4 + c / 64) :: b64Char (c % 64) :: b64encode rest

/-- One entry of the Fly Machines `files` config. -/
structure MachineFile where
  guest_path : Str
  raw_value : Str

/-- The `content.encode()` argument of the deployer: strings pass through,
anything else is stringified first (`str(content)`); the `bytes` branch is
unreachable here. -/
def machineContent (v : PyVal) : Str :=
  match v with
  | .pstr s => s
  | v => pyStr v

/-- `DeployerService._prepare_files_for_machine`: the nginx config entry
followed by one entry per project file, in order, each base64-encoded —
non-string values included. -/
def prepare_files_for_machine (files : List (Str × PyVal)) (nginx_conf : Str) :
    List MachineFile :=
  { guest_path := "/etc/nginx/nginx.conf".toList,
    raw_value := b64encode (utf8Str nginx_conf) } ::
  files.map (fun p =>
    { guest_path := "/usr/share/nginx/html/".toList ++ p.1,
      raw_value := b64encode (utf8Str (machineContent p.2)) })

/-!
## The worker pipeline (`apps/worker/mention_processor.py`)

`MentionProcessor.handle_mention` is embedded as a state-transition function.
The state collects the shared mutable stores the code touches: the Redis
dedup set `twitter:processed`, the per-author Redis rate counters, the
`users`/`projects`/`builds` tables, and a ledger counting the outbound tweet
replies per source tweet id (the observable external side effect).  The AI
generation call and the random slug are oracle inputs (`WEnv`); tweet replies
are modelled as always delivered, and Redis key expiry is outside the model
(no claim spans a retention window).
-/

/-- A Twitter mention, as assembled by `TwitterClient.get_mentions`. -/
structure Mention where
  tweet_id : Str
  author_id : Str
  author_username : Str
  prompt : Str

/-- Oracle inputs consumed by one `handle_mention` invocation: the random
slug and the outcome of `AIBuilder.generate` (either an exception or the
value `json.loads` produced — `generate` itself catches parse failures and
substitutes its own fallback dict, so any `PyVal` can arrive here). -/
structure WEnv where
  slug : Str
  gen : Except Str PyVal

/-- A row of the `projects` table (the columns this pipeline touches). -/
structure WProject where
  pid : Nat
  slug : Str
  name : Str
  description : Option Str
  original_prompt : Str
  files : PyVal
  deployment_status : Str
  source_tweet_id : Str
  entry_point : Option Str

/-- A row of the `builds` table. -/
structure WBuild where
  bid : Nat
  project_id : Nat
  prompt : Str
  status : Str
  error_message : Option Str
  generated_files : Option PyVal

structure WState where
  processed : List Str
  rate : List (Str × Nat)
  users : List Str
  projects : List WProject
  builds : List WBuild
  replies : List (Str × Nat)
  nextId : Nat

/-- Replies sent so far for a given source tweet. -/
def repliesFor : List (Str × Nat) → Str → Nat
  | [], _ => 0
  | p :: rest, t => if p.1 == t then p.2 else repliesFor rest t

/-- Record one outbound reply to tweet `t` (`TwitterClient.reply`). -/
def addReply : List (Str × Nat) → Str → List (Str × Nat)
  | [], t => [(t, 1)]
  | p :: rest, t =>
    if p.1 == t then (p.1, p.2 + 1) :: rest else p :: addReply rest t

def rateFor : List (Str × Nat) → Str → Nat
  | [], _ => 0
  | p :: rest, a => if p.1 == a then p.2 else rateFor rest a

/-- Redis `INCR` on the per-author hourly counter. -/
def rateIncr : List (Str × Nat) → Str → List (Str × Nat)
  | [], a => [(a, 1)]
  | p :: rest, a =>
    if p.1 == a then (p.1, p.2 + 1) :: rest else p :: rateIncr rest a

/-- `ProjectSaver.create_build`: upsert the user, insert a `projects` row
(status `building`, files `'{}'`) and a `builds` row (status `queued`). -/
def wCreateBuild (s : WState) (slug : Str) (m : Mention) : WState :=
  { s with
    users := if s.users.contains m.author_id then s.users else s.users ++ [m.author_id],
    projects := s.projects ++
      [{ pid := s.nextId, slug := slug, name := "Building...".toList,
         description := none, original_prompt := m.prompt, files := .pdict [],
         deployment_status := "building".toList, source_tweet_id := m.tweet_id,
         entry_point := none }],
    builds := s.builds ++
      [{ bid := s.nextId + 1, project_id := s.nextId, prompt := m.prompt,
         status := "queued".toList, error_message := none, generated_files := none }],
    nextId := s.nextId + 2 }

/-- `ProjectSaver.update_status`: `UPDATE projects SET deployment_status`
and `UPDATE builds SET status, error_message` for the project with `slug`. -/
def wUpdateStatus (s : WState) (slug status : Str) (err : Option Str) : WState :=
  let target : Option Nat := (s.projects.find? (fun p => p.slug == slug)).map WProject.pid
  { s with
    projects := s.projects.map
      (fun p => if p.slug == slug then { p with deployment_status := status } else p),
    builds := s.builds.map
      (fun b => if some b.project_id == target then
          { b with status := status, error_message := err } else b) }

/-- `ProjectSaver.complete_build`: persist the generated files and mark the
project `deployed` / the build `complete`. -/
def wCompleteBuild (s : WState) (slug : Str) (name descr : Str) (files : PyVal)
    (entry : Str) : WState :=
  let target : Option Nat := (s.projects.find? (fun p => p.slug == slug)).map WProject.pid
  { s with
    projects := s.projects.map
      (fun p => if p.slug == slug then
          { p with name := name, description := some descr, files := files,
                   entry_point := some entry,
                   deployment_status := "deployed".toList } else p),
    builds := s.builds.map
      (fun b => if some b.project_id == target then
          { b with status := "complete".toList, generated_files := some files } else b) }

/-- The `except` arm of `handle_mention`: mark the build failed (the slug is
always set once the `try` block is reached) and post the failure reply. -/
def wFail (s : WState) (slug : Str) (t : Str) (err : Str) : WState :=
  let s2 := wUpdateStatus s slug "failed".toList (some err)
  { s2 with replies := addReply s2.replies t }

/-- The tail of the `try` block of `handle_mention`, after
`AIBuilder.generate` has returned `result` and the status is already
`saving`: evaluate the keyword arguments of `complete_build` (the
`result.get(…)` calls raise `AttributeError` on a non-dict, and
`result["files"]` raises `KeyError` when the key is missing — both land in
the `except` arm), then persist and post the final reply. -/
def hmFinish (m : Mention) (slug : Str) (result : PyVal) (s : WState) : WState :=
  match result with
  | .pdict kvs =>
    match kvGet kvs "files".toList with
    | some files =>
      let s4 := wCompleteBuild s slug
        (pyGetStr result "name".toList "Untitled".toList)
        (pyGetStr result "description".toList (takeN m.prompt 100))
        files
        (pyGetStr result "entry_point".toList "index.html".toList)
      { s4 with replies := addReply s4.replies m.tweet_id }
    | none => wFail s slug m.tweet_id "KeyError: files".toList
  | _ => wFail s slug m.tweet_id "AttributeError: result has no get".toList

/-- The `try` block of `handle_mention`: post the "building" reply, create
the build records, mark `generating`, run the generation oracle, and either
finish or fail. -/
def hmBuild (m : Mention) (env : WEnv) (s : WState) : WState :=
  let slug := env.slug
  let s3 := wUpdateStatus
    (wCreateBuild { s with replies := addReply s.replies m.tweet_id } slug m)
    slug "generating".toList none
  match env.gen with
  | .error e => wFail s3 slug m.tweet_id e
  | .ok result => hmFinish m slug result (wUpdateStatus s3 slug "saving".toList none)

/-- The `SADD`/`INCR` prologue of `handle_mention`: record the tweet id in
the dedup set and bump the author's hourly counter. -/
def hmMark (m : Mention) (s : WState) : WState :=
  { s with processed := s.processed ++ [m.tweet_id],
           rate := rateIncr s.rate m.author_id }

/-- `MentionProcessor.handle_mention`: dedup guard, rate limit, prompt
moderation, then the build. -/
def handle_mention (m : Mention) (env : WEnv) (s : WState) : WState :=
  if s.processed.contains m.tweet_id then s
  else if rateFor (hmMark m s).rate m.author_id > 3 then
    { hmMark m s with replies := addReply (hmMark m s).replies m.tweet_id }
  else if !(worker_check_prompt m.prompt).1 then
    { hmMark m s with replies := addReply (hmMark m s).replies m.tweet_id }
  else hmBuild m env (hmMark m s)

def runWorker : List (Mention × WEnv) → WState → WState
  | [], s => s
  | (m, e) :: rest, s => runWorker rest (handle_mention m e s)

def emptyWState : WState :=
  { processed := [], rate := [], users := [], projects := [], builds := [],
    replies := [], nextId := 0 }

/-!
## The webhook pipeline (`app/routers/webhooks.py` — `process_mention_build`)

The Notifier webhook handler schedules `process_mention_build` as a
background task for every delivery.  There is no dedup set, no rate limit and
no moderation on this path; the "building" reply is sent before the project
row is inserted, and the generated files are written with
`deployment_status='deployed'` directly.
-/

structure WebState where
  users : List Str
  projects : List WProject
  replies : List (Str × Nat)
  nextId : Nat

def emptyWebState : WebState := { users := [], projects := [], replies := [], nextId := 0 }

/-- `process_mention_build`.  `env.gen` is the outcome of the inline
generation-and-parse block: an exception, or the parsed value (that block's
bare `except` already substitutes a fallback dict on parse errors, but a
successfully parsed non-dict or a dict without `"files"` flows through and
raises later, landing in the outer `except`, which posts the failure
reply). -/
def process_mention_build (tweet_id author_id _author_username prompt : Str)
    (env : WEnv) (s : WebState) : WebState :=
  let slug := env.slug
  let s := { s with replies := addReply s.replies tweet_id }
  let s := { s with users := if s.users.contains author_id then s.users
                             else s.users ++ [author_id] }
  let s := { s with
    projects := s.projects ++
      [({ pid := s.nextId, slug := slug, name := "Building...".toList,
          description := none, original_prompt := prompt, files := .pdict [],
          deployment_status := "building".toList, source_tweet_id := tweet_id,
          entry_point := some "index.html".toList } : WProject)],
    nextId := s.nextId + 1 }
  match env.gen with
  | .error _ => { s with replies := addReply s.replies tweet_id }
  | .ok result =>
    match result with
    | .pdict kvs =>
      match kvGet kvs "files".toList with
      | some files =>
        let s := { s with
          projects := s.projects.map (fun (p : WProject) =>
            if p.slug == slug then
              { p with name := pyGetStr result "name".toList "Untitled".toList,
                       description := some (pyGetStr result "description".toList
                                              (takeN prompt 100)),
                       files := files,
                       entry_point := some (pyGetStr result "entry_point".toList
                                              "index.html".toList),
                       deployment_status := "deployed".toList }
            else p) }
        { s with replies := addReply s.replies tweet_id }
      | none => { s with replies := addReply s.replies tweet_id }
    | _ => { s with replies := addReply s.replies tweet_id }

/-- Projects created for a given source tweet. -/
def projectsForTweet (ps : List WProject) (t : Str) : Nat :=
  ps.countP (fun p => p.source_tweet_id == t)

/-!
## The admin pipeline's reply ledger (`app/routers/admin.py`)

The admin pipeline is the one path that keeps the spec's ReplyLedger: a
durable Redis counter `heyclaude:reply_count:{tweet_id}` (7-day TTL),
bumped with an atomic `INCR` (`increment_reply_count`) and read with `GET`
(`get_reply_count`, 0 when absent).  `reply_to_tweet` skips the post once
the count has reached `MAX_REPLIES_PER_TWEET` — every caller in the source
leaves `force` at its default `False` — posts otherwise, and increments the
counter only after a 2xx response.  The state keeps the counter map and a
ledger of replies actually published; the credentials-missing early return
and a non-2xx post both leave the state unchanged, which the `sendOk`
oracle covers.  Key expiry and the in-memory fallback used when Redis is
unreachable are outside the model.
-/

def MAX_REPLIES_PER_TWEET : Nat := 2

structure AdminReplyState where
  reply_counts : List (Str × Nat)
  sent : List (Str × Nat)

/-- `reply_to_tweet(tweet_id, message)` (with the default `force=False`):
returns whether a reply was posted. -/
def admin_reply_to_tweet (tweet_id : Str) (sendOk : Bool) (s : AdminReplyState) :
    AdminReplyState × Bool :=
  let current := repliesFor s.reply_counts tweet_id
  if current ≥ MAX_REPLIES_PER_TWEET then (s, false)
  else if sendOk then
    ({ sent := addReply s.sent tweet_id,
       reply_counts := addReply s.reply_counts tweet_id }, true)
  else (s, false)

/-- A sequence of admin reply attempts: `(tweet_id, did the post get 2xx)`. -/
def runAdminReplies : List (Str × Bool) → AdminReplyState → AdminReplyState
  | [], s => s
  | (t, ok) :: rest, s => runAdminReplies rest (admin_reply_to_tweet t ok s).1

/-!
## `app/routers/projects.py` — `refine_project`

The refine route looks up the project, unconditionally marks it `building`,
spawns `do_refine` with `asyncio.create_task` (immediately-scheduled
concurrent execution, not a queue), and returns `{"status": "refining"}`.
Pending tasks are recorded in the state; the AI service is assumed
configured.  Nothing in the route inspects the project's current status or
any in-flight build.
-/

/-- A spawned `do_refine` background task. -/
structure RTask where
  slug : Str
  instruction : Str
  current_files : PyVal

structure RState where
  projects : List WProject
  tasks : List RTask

inductive RefResp where
  | notFound
  | refining
deriving DecidableEq, Repr

/-- Python truthiness for the `data.current_files or project.files`
expression. -/
def pyTruthy (v : PyVal) : Bool :=
  match v with
  | .pnone => false
  | .pbool b => b
  | .pint n => n != 0
  | .pfloat lex => !(lex == "0".toList || lex == "0.0".toList || lex == "-0.0".toList)
  | .pstr s => !s.isEmpty
  | .plist xs => !xs.isEmpty
  | .pdict kvs => !kvs.isEmpty

/-- `refine_project(slug, data)`. -/
def refine_project (slug instruction : Str) (current_files_arg : Option PyVal)
    (s : RState) : RState × RefResp :=
  match s.projects.find? (fun p => p.slug == slug) with
  | none => (s, .notFound)
  | some project =>
    let s := { s with
      projects := s.projects.map (fun (p : WProject) =>
        if p.slug == slug then { p with deployment_status := "building".toList } else p) }
    let current_files :=
      match current_files_arg with
      | some v => if pyTruthy v then v else project.files
      | none => project.files
    ({ s with tasks := s.tasks ++
        [({ slug := slug, instruction := instruction,
            current_files := current_files } : RTask)] },
     .refining)

/-!
## `app/services/cleanup.py` — `CleanupService.cleanup_failed_deployments`

The sweep selects projects whose `deployment_status` is in
`{building, deploying, pending}` with `created_at` older than one hour, and
sets each selected project's status to `failed`.  It touches no `builds`
row.  Time is in seconds.
-/

structure CProject where
  pid : Nat
  slug : Str
  deployment_status : Str
  created_at : Nat
deriving DecidableEq, Repr

structure CBuild where
  bid : Nat
  project_id : Nat
  status : Str
  created_at : Nat
deriving DecidableEq, Repr

structure CState where
  projects : List CProject
  builds : List CBuild
deriving DecidableEq, Repr

def stuckStatuses : List Str :=
  ["building".toList, "deploying".toList, "pending".toList]

def isStuck (now : Nat) (p : CProject) : Bool :=
  stuckStatuses.contains p.deployment_status && p.created_at < now - 3600

/-- `cleanup_failed_deployments`; returns the new state and the `cleaned`
count. -/
def cleanup_failed_deployments (now : Nat) (db : CState) : CState × Nat :=
  ({ db with
     projects := db.projects.map (fun p =>
       if isStuck now p then { p with deployment_status := "failed".toList } else p) },
   (db.projects.filter (isStuck now)).length)

/-!
## `app/middleware/rate_limit.py` — `RateLimitMiddleware.dispatch`

The Redis calls (`incr`, `expire`, `ttl`) are oracle inputs that either
return a value or raise `redis.RedisError`; the single `except
redis.RedisError` arm of `dispatch` returns the downstream response
untouched.  The downstream handler's response is itself a parameter.
-/

def SKIP_PATHS : List Str :=
  ["/health".toList, "/docs".toList, "/redoc".toList, "/openapi.json".toList]

def rlLIMITS : List (Str × (Nat × Nat)) :=
  [("default".toList, (60, 60)), ("build".toList, (10, 60)),
   ("auth".toList, (20, 60)), ("health".toList, (1000, 60))]

/-- `RateLimitMiddleware._get_client_ip`. -/
def get_client_ip (xff xreal clientHost : Option Str) : Str :=
  match xff with
  | some f => pyStrip ((splitOnSub f ",".toList).headD [])
  | none =>
    match xreal with
    | some r => pyStrip r
    | none => clientHost.getD "unknown".toList

/-- `RateLimitMiddleware._get_limit_type`. -/
def get_limit_type (path method : Str) : Str :=
  if strStarts "/health".toList path then "health".toList
  else if strStarts "/api/auth".toList path then "auth".toList
  else if strStarts "/api/projects".toList path && method == "POST".toList then
    "build".toList
  else "default".toList

structure HttpResponse where
  status : Nat
  headers : List (Str × Str)
  body : Str
deriving DecidableEq, Repr

/-- The three Redis interactions of one `dispatch` call. -/
structure RedisOracle where
  incrR : Except Unit Int
  expireR : Except Unit Unit
  ttlR : Except Unit Int

def intMax0 (n : Int) : Int := if n < 0 then 0 else n

/-- `RateLimitMiddleware.dispatch`. -/
def dispatch (path method : Str) (xff xreal clientHost : Option Str)
    (oracle : RedisOracle) (downstream : HttpResponse) : HttpResponse :=
  if SKIP_PATHS.any (fun sp => strStarts sp path) then downstream
  else
    let _client_ip := get_client_ip xff xreal clientHost
    let limit_type := get_limit_type path method
    let lim := (rlLIMITS.find? (fun p => p.1 == limit_type)).map Prod.snd
    let max_requests := (lim.getD (0, 0)).1
    match oracle.incrR with
    | .error _ => downstream
    | .ok count =>
      match (if count == 1 then oracle.expireR else .ok ()) with
      | .error _ => downstream
      | .ok _ =>
        match oracle.ttlR with
        | .error _ => downstream
        | .ok ttl =>
          if count > (max_requests : Int) then
            { status := 429,
              headers := [("X-RateLimit-Limit".toList, natToStr max_requests),
                          ("X-RateLimit-Remaining".toList, "0".toList),
                          ("X-RateLimit-Reset".toList, intToStr ttl),
                          ("Retry-After".toList, intToStr ttl)],
              body := "\x7b\"error\": \"Too many requests\", \"retry_after\": ".toList
                        ++ intToStr ttl ++ "\x7d".toList }
          else
            { downstream with headers := downstream.headers ++
                [("X-RateLimit-Limit".toList, natToStr max_requests),
                 ("X-RateLimit-Remaining".toList,
                  intToStr (intMax0 ((max_requests : Int) - count))),
                 ("X-RateLimit-Reset".toList, intToStr ttl)] }

/-!
## `app/routers/projects.py` — `create_project`

The API build path: insert the project (status `building`) and build rows,
call `BuilderService.generate_project` (which itself runs both moderation
gates), assign the generated files, deploy, and only then set
`deployment_status = "live"`.  Every `except` arm commits `failed` statuses.
The AI response text, token count, random slug and the deployer outcome are
oracle inputs; the broadcast and usage-tracking side effects carry no state
the claims read and are elided.  All mutations of the ORM objects are
committed once per branch, so the model records the final row per branch.
-/

structure AProject where
  pid : Nat
  slug : Str
  name : Option PyVal
  description : Option PyVal
  original_prompt : Str
  files : PyVal
  entry_point : PyVal
  deployment_status : Str
  deployment_url : Option Str

structure ABuild where
  bid : Nat
  project_id : Nat
  status : Str
  error_message : Option Str

structure AState where
  projects : List AProject
  builds : List ABuild
  nextId : Nat

structure AEnv where
  slug : Str
  respText : Except Str Str
  tokens_used : Int
  deployR : Except Str (Str × Str)

/-- `d.get(k)` with no default. -/
def pyGet (v : PyVal) (k : Str) : Option PyVal :=
  match v with
  | .pdict kvs => kvGet kvs k
  | _ => none

def create_project (prompt : Str) (tmpl : Option Str) (env : AEnv) (s : AState) :
    AState × Except Str AProject :=
  let _template := tmpl.getD (detect_template prompt)
  let p0 : AProject :=
    { pid := s.nextId, slug := env.slug, name := none, description := none,
      original_prompt := prompt, files := .pdict [],
      entry_point := .pstr "index.html".toList,
      deployment_status := "building".toList, deployment_url := none }
  let b0 : ABuild :=
    { bid := s.nextId + 1, project_id := s.nextId,
      status := "building".toList, error_message := none }
  let s := { s with nextId := s.nextId + 2 }
  let genRes : Except Str PyVal :=
    match env.respText with
    | .error e => .error e
    | .ok txt => generate_project prompt txt env.tokens_used
  match genRes with
  | .error e =>
    let pf := { p0 with deployment_status := "failed".toList }
    ({ s with projects := s.projects ++ [pf],
              builds := s.builds ++
                [{ b0 with status := "failed".toList, error_message := some e }] },
     .error e)
  | .ok result =>
    match pyGet result "files".toList with
    | none =>
      let e := "KeyError: files".toList
      let pf := { p0 with deployment_status := "failed".toList }
      ({ s with projects := s.projects ++ [pf],
                builds := s.builds ++
                  [{ b0 with status := "failed".toList, error_message := some e }] },
       .error e)
    | some filesV =>
      let p1 := { p0 with
        files := filesV,
        name := some (pyGetD result "name".toList (.pstr "Untitled Project".toList)),
        description := pyGet result "description".toList,
        entry_point := pyGetD result "entry_point".toList (.pstr "index.html".toList) }
      match env.deployR with
      | .error e =>
        let pf := { p1 with deployment_status := "failed".toList }
        ({ s with projects := s.projects ++ [pf],
                  builds := s.builds ++
                    [{ b0 with status := "failed".toList, error_message := some e }] },
         .error e)
      | .ok (url, _did) =>
        let pf := { p1 with deployment_status := "live".toList,
                            deployment_url := some url }
        ({ s with projects := s.projects ++ [pf],
                  builds := s.builds ++ [{ b0 with status := "complete".toList }] },
         .ok pf)

/-!
## Concrete pipeline instances used by the claim theorems
-/

/-- Are all string-valued files free of `CODE_PATTERNS` matches?  (The
hypothesis of C10, phrased decidably.) -/
def fileContentsClean (files : List (Str × PyVal)) : Bool :=
  files.all (fun kv =>
    match kv.2 with
    | .pstr t => !(CODE_PATTERNS.any (fun pr => reSearch true pr.1 t))
    | _ => true)
/-- A model response whose single file value contains a literal `}` inside a
JSON string, with prose before the object and one more `}` in the prose after
it: | x {"a": "b}c"} y} | . -/
def c3_trailing_input : Str := "x \x7b\"a\": \"b\x7dc\"\x7d y\x7d".toList
/-- The same kind of response without any `}` after the object:
| prose {"files": {"a.css": "b}c"}, "name": "x"} | . -/
def c3_clean_input : Str := "prose \x7b\"files\": \x7b\"a.css\": \"b\x7dc\"\x7d, \"name\": \"x\"\x7d".toList
/-- Has a value the shape of a moderated file map: a dict that
`check_code` allows? -/
def filesModerated (v : PyVal) : Bool :=
  match v with
  | .pdict fkvs => (check_code fkvs []).allowed
  | _ => false
def c1_env : AEnv :=
  { slug := "s1".toList,
    respText := .ok "\x7b\"files\": \x7b\"index.html\": \"hi\"\x7d\x7d".toList,
    tokens_used := 5,
    deployR := .ok ("https://bx-s1.fly.dev".toList, "m1".toList) }
def c1_s0 : AState := { projects := [], builds := [], nextId := 0 }
/-- The project row `create_project` commits for `c1_env`. -/
def c1_wit_project : AProject :=
  { pid := 0, slug := "s1".toList,
    name := some (.pstr "Untitled Project".toList),
    description := none,
    original_prompt := "a todo app".toList,
    files := .pdict [("index.html".toList, .pstr "hi".toList)],
    entry_point := .pstr "index.html".toList,
    deployment_status := "live".toList,
    deployment_url := some "https://bx-s1.fly.dev".toList }
def c1_cx_files : PyVal :=
  .pdict [("index.html".toList,
           .pstr "<script>eval(atob(\x27aGk=\x27))</script>".toList)]
def c1_cx_mention : Mention :=
  { tweet_id := "t1".toList, author_id := "u1".toList,
    author_username := "alice".toList, prompt := "todo list".toList }
def c1_cx_env : WEnv :=
  { slug := "todo-a1b2".toList,
    gen := .ok (.pdict [("name".toList, .pstr "Todo".toList),
                        ("files".toList, c1_cx_files),
                        ("entry_point".toList, .pstr "index.html".toList)]) }
/-- The admin ledger invariant: published replies never outrun the durable
counter, and the counter never passes the cap. -/
def adminCapInv (t : Str) (s : AdminReplyState) : Prop :=
  repliesFor s.sent t ≤ repliesFor s.reply_counts t
  ∧ repliesFor s.reply_counts t ≤ MAX_REPLIES_PER_TWEET

/-- The C2 invariant: at most two replies per tweet, and none before the
tweet is recorded in the dedup set. -/
def replyCapInv (t : Str) (s : WState) : Prop :=
  repliesFor s.replies t ≤ 2 ∧ (t ∉ s.processed → repliesFor s.replies t = 0)
def c2_wit_mention : Mention :=
  { tweet_id := "t2".toList, author_id := "u2".toList,
    author_username := "bob".toList, prompt := "a page".toList }
def c2_wit_env : WEnv :=
  { slug := "page-zz99".toList,
    gen := .ok (.pdict [("files".toList,
                         .pdict [("index.html".toList, .pstr "<p>hi</p>".toList)])]) }
def c2_cx_env1 : WEnv :=
  { slug := "page-aa11".toList,
    gen := .ok (.pdict [("files".toList,
                         .pdict [("index.html".toList, .pstr "hi".toList)])]) }
def c2_cx_env2 : WEnv :=
  { slug := "page-bb22".toList,
    gen := .ok (.pdict [("files".toList,
                         .pdict [("index.html".toList, .pstr "hi".toList)])]) }
def c6_wit_mention : Mention :=
  { tweet_id := "t3".toList, author_id := "u3".toList,
    author_username := "dana".toList, prompt := "a blog".toList }
def c6_wit_env : WEnv :=
  { slug := "blog-cc33".toList,
    gen := .ok (.pdict [("files".toList,
                         .pdict [("index.html".toList, .pstr "hi".toList)])]) }
def c6_cx_env1 : WEnv :=
  { slug := "site-dd44".toList,
    gen := .ok (.pdict [("files".toList,
                         .pdict [("index.html".toList, .pstr "hi".toList)])]) }
def c6_cx_env2 : WEnv :=
  { slug := "site-ee55".toList,
    gen := .ok (.pdict [("files".toList,
                         .pdict [("index.html".toList, .pstr "hi".toList)])]) }
def c7_wit_state : RState :=
  { projects := [{ pid := 0, slug := "p1".toList, name := "App".toList,
                   description := none, original_prompt := "an app".toList,
                   files := .pdict [("index.html".toList, .pstr "hi".toList)],
                   deployment_status := "building".toList,
                   source_tweet_id := "t".toList,
                   entry_point := some "index.html".toList }],
    tasks := [{ slug := "p1".toList, instruction := "first change".toList,
                current_files := .pdict [] }] }
def c7_cx_s0 : RState :=
  { projects := [{ pid := 0, slug := "p1".toList, name := "App".toList,
                   description := none, original_prompt := "an app".toList,
                   files := .pdict [("index.html".toList, .pstr "hi".toList)],
                   deployment_status := "deployed".toList,
                   source_tweet_id := "t".toList,
                   entry_point := some "index.html".toList }],
    tasks := [] }
def c7_cx_s1 : RState := (refine_project "p1".toList "make it blue".toList none c7_cx_s0).1
def c8_wit_db : CState :=
  { projects := [{ pid := 0, slug := "old".toList,
                   deployment_status := "building".toList, created_at := 0 },
                 { pid := 1, slug := "fresh".toList,
                   deployment_status := "live".toList, created_at := 0 }],
    builds := [{ bid := 2, project_id := 0, status := "generating".toList,
                 created_at := 0 }] }
def c8_cx_db : CState :=
  { projects := [{ pid := 0, slug := "s".toList,
                   deployment_status := "building".toList, created_at := 0 }],
    builds := [{ bid := 1, project_id := 0, status := "generating".toList,
                 created_at := 0 }] }

/-!
## Claim theorems
-/

/-- C5: `ContentModerator.check_prompt` classifies exactly as claimed: a
prompt matching one of the listed injection patterns is rejected with the
`"injection"` flag; a prompt matching a dangerous pattern (and no injection
pattern) is rejected with the `"dangerous"` flag; a prompt matching none of
the listed patterns is allowed.  Matching is `re.search` of the transcribed
patterns against the lowercased prompt, exactly as in the source. -/
theorem c5_check_prompt_classifies (p : Str) :
    (injAny (lowerStr p) = true →
      check_prompt p =
        { allowed := false,
          reason := some "Request contains disallowed patterns".toList,
          flags := ["injection".toList] })
    ∧ (injAny (lowerStr p) = false → dangAny (lowerStr p) = true →
      check_prompt p =
        { allowed := false,
          reason := some "This type of application cannot be built".toList,
          flags := ["dangerous".toList] })
    ∧ (injAny (lowerStr p) = false → dangAny (lowerStr p) = false →
      (check_prompt p).allowed = true) := by
  refine ⟨fun h1 => ?_, fun h1 h2 => ?_, fun h1 h2 => ?_⟩
  · simp [check_prompt, h1]
  · simp [check_prompt, h1, h2]
  · simp [check_prompt, h1, h2]
/-- C5 witness: one prompt of each of the three kinds, with the pattern
tests evaluated concretely. -/
theorem c5_check_prompt_witness :
    check_prompt "please jailbreak now".toList =
      { allowed := false,
        reason := some "Request contains disallowed patterns".toList,
        flags := ["injection".toList] }
    ∧ check_prompt "build a phishing site".toList =
      { allowed := false,
        reason := some "This type of application cannot be built".toList,
        flags := ["dangerous".toList] }
    ∧ (check_prompt "make me a todo app".toList).allowed = true :=
  ⟨(c5_check_prompt_classifies "please jailbreak now".toList).1 (by decide),
   (c5_check_prompt_classifies "build a phishing site".toList).2.1 (by decide) (by decide),
   (c5_check_prompt_classifies "make me a todo app".toList).2.2 (by decide) (by decide)⟩
/-- C9: when the Redis `INCR` that checks the counter raises `RedisError`,
`RateLimitMiddleware.dispatch` fails open — the downstream response is
returned untouched (no 429, no error page), for every non-skipped path. -/
theorem c9_rate_limit_fails_open (path method : Str) (xff xreal ch : Option Str)
    (oracle : RedisOracle) (downstream : HttpResponse)
    (hskip : SKIP_PATHS.any (fun sp => strStarts sp path) = false)
    (herr : oracle.incrR = .error ()) :
    dispatch path method xff xreal ch oracle downstream = downstream := by
  unfold dispatch
  simp [hskip, herr]
/-- C9 witness: a build request with a failing Redis store is served with
the downstream handler's 200 response. -/
theorem c9_rate_limit_fails_open_witness :
    dispatch "/api/projects".toList "POST".toList none none none
      { incrR := .error (), expireR := .ok (), ttlR := .ok 60 }
      { status := 200, headers := [], body := "ok".toList }
      = { status := 200, headers := [], body := "ok".toList } :=
  c9_rate_limit_fails_open _ _ _ _ _ _ _ (by decide) rfl
theorem check_code_clean_allowed (files : List (Str × PyVal)) (flags : List Str)
    (h : fileContentsClean files = true) :
    (check_code files flags).allowed = true := by
  induction files generalizing flags with
  | nil => rfl
  | cons kv rest ih =>
    obtain ⟨n, v⟩ := kv
    simp only [fileContentsClean, List.all_cons, Bool.and_eq_true] at h
    match hv : v with
    | .pstr t =>
      have hfind : CODE_PATTERNS.find? (fun pr => reSearch true pr.1 t) = none := by
        rw [List.find?_eq_none]
        intro pr hpr
        have := h.1
        simp only [hv, Bool.not_eq_true', List.any_eq_false] at this
        simpa using this pr hpr
      simp only [check_code, hfind]
      exact ih _ h.2
    | .pnone => exact ih _ h.2
    | .pbool b => exact ih _ h.2
    | .pint n2 => exact ih _ h.2
    | .pfloat lex => exact ih _ h.2
    | .plist xs => exact ih _ h.2
    | .pdict kvs => exact ih _ h.2
/-- C10: `check_code` skips every non-string file value — neither the
malicious-code patterns nor the network-activity counting ever see it — so a
file map whose string-valued entries are clean is allowed no matter what the
non-string values contain; and `_prepare_files_for_machine` nevertheless
serves every one of those files, stringified and base64-encoded, under the
nginx web root. -/
theorem c10_check_code_skips_non_strings (files : List (Str × PyVal)) (conf : Str)
    (h : fileContentsClean files = true) :
    (check_code files []).allowed = true
    ∧ ∀ n v, (n, v) ∈ files →
        ({ guest_path := "/usr/share/nginx/html/".toList ++ n,
           raw_value := b64encode (utf8Str (machineContent v)) } : MachineFile)
          ∈ prepare_files_for_machine files conf := by
  refine ⟨check_code_clean_allowed files [] h, fun n v hm => ?_⟩
  unfold prepare_files_for_machine
  exact List.mem_cons_of_mem _ (List.mem_map_of_mem _ hm)
/-- C10 witness: the only unsafe content sits inside a dict value (a shape
the deployer will stringify and serve); `check_code` allows the map, and the
dict-valued file is prepared for the machine verbatim. -/
theorem c10_check_code_skips_non_strings_witness :
    (check_code
        [("index.html".toList,
          .pdict [("c".toList, .pstr "eval(atob(\x27aGk=\x27))".toList)]),
         ("readme.txt".toList, .pstr "hello".toList)] []).allowed = true
    ∧ ({ guest_path := "/usr/share/nginx/html/index.html".toList,
         raw_value := b64encode (utf8Str (machineContent
           (.pdict [("c".toList, .pstr "eval(atob(\x27aGk=\x27))".toList)]))) } : MachineFile)
        ∈ prepare_files_for_machine
            [("index.html".toList,
              .pdict [("c".toList, .pstr "eval(atob(\x27aGk=\x27))".toList)]),
             ("readme.txt".toList, .pstr "hello".toList)] [] := by
  have h := c10_check_code_skips_non_strings
    [("index.html".toList,
      .pdict [("c".toList, .pstr "eval(atob(\x27aGk=\x27))".toList)]),
     ("readme.txt".toList, .pstr "hello".toList)] [] (by decide)
  exact ⟨h.1, h.2 "index.html".toList _ (by simp)⟩
/-- C3 counterexample: strategy 3 is naive `find`/`rfind`, not brace-depth
counting.  On `c3_trailing_input` the claimed behaviour would extract the
object `{"a": "b}c"}`; the code instead slices up to the last `}` of the
text, `json.loads` fails on the widened slice, and `parse_response` falls
back to the synthesized page — the extracted object (and its key `"a"`) is
lost. -/
theorem c3_brace_counting_counterexample :
    parse_response c3_trailing_input = fallbackResult c3_trailing_input
    ∧ (match parse_response c3_trailing_input with
       | .pdict kvs => (kvGet kvs "a".toList).isNone
       | _ => false) = true := ⟨rfl, rfl⟩
/-- C3 amended: strategy 3 slices from the first `{` to the last `}` of the
whole text with no string-literal awareness.  When the object's closing
brace is the last `}` in the text — in particular when the only extra
braces are literal `}` characters inside string values — the slice is the
full object and parsing succeeds without truncation; when any `}` follows
the object, the slice is widened past the object and the parse falls
through (previous theorem).  The positive half, on `c3_clean_input`: -/
theorem c3_naive_slice_amended :
    parse_response c3_clean_input =
      .pdict [("files".toList, .pdict [("a.css".toList, .pstr "b\x7dc".toList)]),
              ("name".toList, .pstr "x".toList)]
    ∧ strategy3 c3_trailing_input = none := ⟨rfl, rfl⟩
/-- C4 amended, part 1: the parsing cascade is total by construction (every
strategy returns an `Option` and the fallback is unconditional), and when
all three strategies fail the result is exactly the synthesized fallback:
a dict carrying the four core keys whose files map holds a single
`index.html` echoing the raw text.  A *successful* earlier strategy, however,
returns whatever JSON value parsed — which need not be a dict and need not
carry those keys (see the counterexample). -/
theorem c4_parse_response_fallback (t : Str)
    (h1 : strategy1 t = none) (h2 : strategy2 t = none) (h3 : strategy3 t = none) :
    parse_response t = fallbackResult t
    ∧ pyGet (fallbackResult t) "files".toList
        = some (.pdict [("index.html".toList, .pstr (create_fallback_html t))])
    ∧ hasCoreKeys (fallbackResult t) = true := by
  refine ⟨?_, rfl, rfl⟩
  unfold parse_response
  rw [h1, h2, h3]
/-- C4 witness: a response with no JSON, no fences and no braces takes the
fallback path. -/
theorem c4_parse_response_fallback_witness :
    parse_response "no structured output at all".toList
      = fallbackResult "no structured output at all".toList
    ∧ pyGet (fallbackResult "no structured output at all".toList) "files".toList
        = some (.pdict [("index.html".toList,
            .pstr (create_fallback_html "no structured output at all".toList))])
    ∧ hasCoreKeys (fallbackResult "no structured output at all".toList) = true :=
  c4_parse_response_fallback "no structured output at all".toList rfl rfl rfl
/-- C4 counterexample: on the input `"{}"` strategy 1 succeeds and the
returned value is the empty dict, which carries none of the four keys — the
claim's "consequently the returned value is always a dict carrying name,
description, files, and entry_point keys" fails. -/
theorem c4_core_keys_counterexample :
    parse_response "\x7b\x7d".toList = PyVal.pdict []
    ∧ hasCoreKeys (parse_response "\x7b\x7d".toList) = false := ⟨rfl, rfl⟩

/-!
### Reply-ledger and state-threading lemmas for the worker model
-/
theorem repliesFor_addReply_self (rs : List (Str × Nat)) (t : Str) :
    repliesFor (addReply rs t) t = repliesFor rs t + 1 := by
  induction rs with
  | nil => simp [addReply, repliesFor]
  | cons p rest ih =>
    by_cases h : p.1 == t
    · simp [addReply, repliesFor, h]
    · simp [addReply, repliesFor, h, ih]
theorem repliesFor_addReply_other (rs : List (Str × Nat)) (t t2 : Str)
    (h : t ≠ t2) : repliesFor (addReply rs t2) t = repliesFor rs t := by
  induction rs with
  | nil =>
    have : (t2 == t) = false := by simp [Ne.symm h]
    simp [addReply, repliesFor, this]
  | cons p rest ih =>
    by_cases h2 : p.1 == t2
    · have he : p.1 = t2 := by simpa using h2
      have : (p.1 == t) = false := by simp [he, Ne.symm h]
      simp [addReply, repliesFor, h2, this]
    · by_cases h3 : p.1 == t
      · simp [addReply, repliesFor, h2, h3]
      · simp [addReply, repliesFor, h2, h3, ih]
theorem wCreateBuild_processed (s : WState) (slug : Str) (m : Mention) :
    (wCreateBuild s slug m).processed = s.processed := rfl
theorem wCreateBuild_replies (s : WState) (slug : Str) (m : Mention) :
    (wCreateBuild s slug m).replies = s.replies := rfl
theorem wUpdateStatus_processed (s : WState) (slug st : Str) (err : Option Str) :
    (wUpdateStatus s slug st err).processed = s.processed := rfl
theorem wUpdateStatus_replies (s : WState) (slug st : Str) (err : Option Str) :
    (wUpdateStatus s slug st err).replies = s.replies := rfl
theorem wCompleteBuild_processed (s : WState) (slug n d : Str) (f : PyVal) (e : Str) :
    (wCompleteBuild s slug n d f e).processed = s.processed := rfl
theorem wCompleteBuild_replies (s : WState) (slug n d : Str) (f : PyVal) (e : Str) :
    (wCompleteBuild s slug n d f e).replies = s.replies := rfl
theorem wFail_processed (s : WState) (slug t e : Str) :
    (wFail s slug t e).processed = s.processed := rfl
theorem wFail_replies (s : WState) (slug t e : Str) :
    (wFail s slug t e).replies = addReply s.replies t := rfl
theorem projectsForTweet_append (ps qs : List WProject) (t : Str) :
    projectsForTweet (ps ++ qs) t = projectsForTweet ps t + projectsForTweet qs t := by
  simp [projectsForTweet, List.countP_append]
theorem projectsForTweet_map_preserving (ps : List WProject) (t : Str)
    (f : WProject → WProject) (hf : ∀ p, (f p).source_tweet_id = p.source_tweet_id) :
    projectsForTweet (ps.map f) t = projectsForTweet ps t := by
  simp only [projectsForTweet, List.countP_map]
  apply List.countP_congr
  intro p _
  simp [Function.comp, hf p]
theorem projectsForTweet_wCreateBuild (s : WState) (slug : Str) (m : Mention) (t : Str) :
    projectsForTweet (wCreateBuild s slug m).projects t =
      projectsForTweet s.projects t + (if m.tweet_id == t then 1 else 0) := by
  by_cases h : m.tweet_id == t <;>
    simp [wCreateBuild, projectsForTweet, List.countP_append, h]
theorem projectsForTweet_wUpdateStatus (s : WState) (slug st : Str) (err : Option Str)
    (t : Str) :
    projectsForTweet (wUpdateStatus s slug st err).projects t =
      projectsForTweet s.projects t := by
  unfold wUpdateStatus
  apply projectsForTweet_map_preserving
  intro p
  by_cases h : p.slug == slug <;> simp [h]
theorem projectsForTweet_wCompleteBuild (s : WState) (slug n d : Str) (f : PyVal)
    (e : Str) (t : Str) :
    projectsForTweet (wCompleteBuild s slug n d f e).projects t =
      projectsForTweet s.projects t := by
  unfold wCompleteBuild
  apply projectsForTweet_map_preserving
  intro p
  by_cases h : p.slug == slug <;> simp [h]
theorem projectsForTweet_wFail (s : WState) (slug t2 e : Str) (t : Str) :
    projectsForTweet (wFail s slug t2 e).projects t = projectsForTweet s.projects t := by
  unfold wFail
  exact projectsForTweet_wUpdateStatus s slug "failed".toList (some e) t
theorem hmFinish_processed (m : Mention) (slug : Str) (result : PyVal) (s : WState) :
    (hmFinish m slug result s).processed = s.processed := by
  unfold hmFinish
  split
  · split <;> rfl
  · rfl
theorem hmFinish_replies_self (m : Mention) (slug : Str) (result : PyVal)
    (s : WState) :
    repliesFor (hmFinish m slug result s).replies m.tweet_id =
      repliesFor s.replies m.tweet_id + 1 := by
  unfold hmFinish
  split
  · split
    · exact repliesFor_addReply_self _ _
    · exact repliesFor_addReply_self _ _
  · exact repliesFor_addReply_self _ _
theorem hmFinish_replies_other (m : Mention) (slug : Str) (result : PyVal)
    (s : WState) (t : Str) (h : t ≠ m.tweet_id) :
    repliesFor (hmFinish m slug result s).replies t = repliesFor s.replies t := by
  unfold hmFinish
  split
  · split
    · exact repliesFor_addReply_other _ _ _ h
    · exact repliesFor_addReply_other _ _ _ h
  · exact repliesFor_addReply_other _ _ _ h
theorem hmFinish_projects (m : Mention) (slug : Str) (result : PyVal) (s : WState)
    (t : Str) :
    projectsForTweet (hmFinish m slug result s).projects t =
      projectsForTweet s.projects t := by
  unfold hmFinish
  split
  · split
    · exact projectsForTweet_wCompleteBuild _ _ _ _ _ _ _
    · exact projectsForTweet_wFail _ _ _ _ _
  · exact projectsForTweet_wFail _ _ _ _ _
theorem hmBuild_processed (m : Mention) (env : WEnv) (s : WState) :
    (hmBuild m env s).processed = s.processed := by
  unfold hmBuild
  split
  · rfl
  · rw [hmFinish_processed]
    rfl
theorem hmBuild_replies_self (m : Mention) (env : WEnv) (s : WState) :
    repliesFor (hmBuild m env s).replies m.tweet_id =
      repliesFor s.replies m.tweet_id + 2 := by
  unfold hmBuild
  split
  · rw [wFail_replies, wUpdateStatus_replies, wCreateBuild_replies]
    show repliesFor (addReply (addReply s.replies m.tweet_id) m.tweet_id) m.tweet_id = _
    rw [repliesFor_addReply_self, repliesFor_addReply_self]
  · rw [hmFinish_replies_self, wUpdateStatus_replies, wUpdateStatus_replies,
        wCreateBuild_replies]
    show repliesFor (addReply s.replies m.tweet_id) m.tweet_id + 1 = _
    rw [repliesFor_addReply_self]
theorem hmBuild_replies_other (m : Mention) (env : WEnv) (s : WState) (t : Str)
    (h : t ≠ m.tweet_id) :
    repliesFor (hmBuild m env s).replies t = repliesFor s.replies t := by
  unfold hmBuild
  split
  · rw [wFail_replies, wUpdateStatus_replies, wCreateBuild_replies]
    show repliesFor (addReply (addReply s.replies m.tweet_id) m.tweet_id) t = _
    rw [repliesFor_addReply_other _ _ _ h, repliesFor_addReply_other _ _ _ h]
  · rw [hmFinish_replies_other _ _ _ _ _ h, wUpdateStatus_replies,
        wUpdateStatus_replies, wCreateBuild_replies]
    show repliesFor (addReply s.replies m.tweet_id) t = _
    rw [repliesFor_addReply_other _ _ _ h]
theorem hmBuild_projects_self (m : Mention) (env : WEnv) (s : WState) :
    projectsForTweet (hmBuild m env s).projects m.tweet_id =
      projectsForTweet s.projects m.tweet_id + 1 := by
  unfold hmBuild
  split
  · rw [projectsForTweet_wFail, projectsForTweet_wUpdateStatus,
        projectsForTweet_wCreateBuild]
    simp
  · rw [hmFinish_projects, projectsForTweet_wUpdateStatus,
        projectsForTweet_wUpdateStatus, projectsForTweet_wCreateBuild]
    simp
theorem hmMark_replies (m : Mention) (s : WState) :
    (hmMark m s).replies = s.replies := rfl
theorem hmMark_projects (m : Mention) (s : WState) :
    (hmMark m s).projects = s.projects := rfl
/-- A second `handle_mention` call for an already-recorded tweet id is a
strict no-op: the Redis `SISMEMBER` guard returns before any side effect. -/
theorem handle_mention_dedup (m : Mention) (env : WEnv) (s : WState)
    (h : s.processed.contains m.tweet_id = true) :
    handle_mention m env s = s := by
  unfold handle_mention
  rw [if_pos h]
/-- After any `handle_mention` call, the mention's tweet id is in the dedup
set. -/
theorem handle_mention_mem_processed (m : Mention) (env : WEnv) (s : WState) :
    m.tweet_id ∈ (handle_mention m env s).processed := by
  unfold handle_mention
  by_cases h : s.processed.contains m.tweet_id = true
  · rw [if_pos h]
    exact List.elem_iff.mp h
  · rw [if_neg h]
    have hbase : m.tweet_id ∈ s.processed ++ [m.tweet_id] := by simp
    split
    · exact hbase
    · split
      · exact hbase
      · rw [hmBuild_processed]
        exact hbase
/-- `handle_mention` never removes ids from the dedup set. -/
theorem handle_mention_processed_mono (m : Mention) (env : WEnv) (s : WState)
    (t : Str) (h : t ∈ s.processed) :
    t ∈ (handle_mention m env s).processed := by
  unfold handle_mention
  by_cases hc : s.processed.contains m.tweet_id = true
  · rw [if_pos hc]
    exact h
  · rw [if_neg hc]
    have hbase : t ∈ s.processed ++ [m.tweet_id] := List.mem_append_left _ h
    split
    · exact hbase
    · split
      · exact hbase
      · rw [hmBuild_processed]
        exact hbase
/-- One `handle_mention` call sends at most two replies to its own tweet:
the rejections send one, a full build sends the "building" reply plus one of
"complete"/"failed". -/
theorem handle_mention_replies_le (m : Mention) (env : WEnv) (s : WState) :
    repliesFor (handle_mention m env s).replies m.tweet_id ≤
      repliesFor s.replies m.tweet_id + 2 := by
  unfold handle_mention
  by_cases h : s.processed.contains m.tweet_id = true
  · rw [if_pos h]
    omega
  · rw [if_neg h]
    split
    · show repliesFor (addReply s.replies m.tweet_id) m.tweet_id ≤ _
      rw [repliesFor_addReply_self]
      omega
    · split
      · show repliesFor (addReply s.replies m.tweet_id) m.tweet_id ≤ _
        rw [repliesFor_addReply_self]
        omega
      · rw [hmBuild_replies_self, hmMark_replies]
/-- `handle_mention` never replies to a different tweet. -/
theorem handle_mention_replies_other (m : Mention) (env : WEnv) (s : WState)
    (t : Str) (h : t ≠ m.tweet_id) :
    repliesFor (handle_mention m env s).replies t = repliesFor s.replies t := by
  unfold handle_mention
  by_cases hc : s.processed.contains m.tweet_id = true
  · rw [if_pos hc]
  · rw [if_neg hc]
    split
    · show repliesFor (addReply s.replies m.tweet_id) t = _
      rw [repliesFor_addReply_other _ _ _ h]
    · split
      · show repliesFor (addReply s.replies m.tweet_id) t = _
        rw [repliesFor_addReply_other _ _ _ h]
      · rw [hmBuild_replies_other _ _ _ _ h, hmMark_replies]
/-- One `handle_mention` call creates at most one project for its tweet. -/
theorem handle_mention_projects_le (m : Mention) (env : WEnv) (s : WState)
    (h : projectsForTweet s.projects m.tweet_id = 0) :
    projectsForTweet (handle_mention m env s).projects m.tweet_id ≤ 1 := by
  unfold handle_mention
  by_cases hc : s.processed.contains m.tweet_id = true
  · rw [if_pos hc, h]
    omega
  · rw [if_neg hc]
    split
    · show projectsForTweet s.projects m.tweet_id ≤ 1
      omega
    · split
      · show projectsForTweet s.projects m.tweet_id ≤ 1
        omega
      · rw [hmBuild_projects_self, hmMark_projects, h]
theorem gpCheck_ok (kvs2 : List (Str × PyVal)) (res : PyVal)
    (h : gpCheck kvs2 = .ok res) :
    res = .pdict kvs2
    ∧ filesModerated ((kvGet kvs2 "files".toList).getD (.pdict [])) = true := by
  unfold gpCheck at h
  rcases hgd : (kvGet kvs2 "files".toList).getD (.pdict [])
    with _ | b | n | lex | st | xs | fkvs <;> rw [hgd] at h
  · exact Except.noConfusion h
  · exact Except.noConfusion h
  · exact Except.noConfusion h
  · exact Except.noConfusion h
  · exact Except.noConfusion h
  · exact Except.noConfusion h
  · by_cases hcc : (check_code fkvs []).allowed
    · simp only [hcc, Bool.not_true, Bool.false_eq_true, if_false,
                 Except.ok.injEq] at h
      refine ⟨h.symm, ?_⟩
      exact hcc
    · rw [Bool.not_eq_true] at hcc
      simp only [hcc, Bool.not_false, if_true] at h
      exact Except.noConfusion h
/-- Whenever `BuilderService.generate_project` returns instead of raising,
the files value it hands back passed the output moderation gate. -/
theorem generate_project_ok_files (prompt txt : Str) (tk : Int) (result fv : PyVal)
    (h : generate_project prompt txt tk = .ok result)
    (hf : pyGet result "files".toList = some fv) :
    filesModerated fv = true := by
  unfold generate_project at h
  by_cases hp : (check_prompt prompt).allowed
  · simp only [hp, Bool.not_true, Bool.false_eq_true, if_false] at h
    unfold gpAfterParse at h
    rcases hr : parse_response txt with _ | b | n | lex | st | xs | kvs <;>
      rw [hr] at h
    · exact Except.noConfusion h
    · exact Except.noConfusion h
    · exact Except.noConfusion h
    · exact Except.noConfusion h
    · exact Except.noConfusion h
    · exact Except.noConfusion h
    · obtain ⟨hres, hmod⟩ := gpCheck_ok _ _ h
      subst hres
      simp only [pyGet] at hf
      rw [hf, Option.getD_some] at hmod
      exact hmod
  · rw [Bool.not_eq_true] at hp
    simp only [hp, Bool.not_false, if_true] at h
    exact Except.noConfusion h
/-- C1 amended: on the API path (`create_project` calling
`BuilderService.generate_project`), the output moderation gate does guard
`deployed`: any project the call leaves in status `live` carries a file map
that `check_code` allowed — a rejected generation raises before files are
ever assigned.  (The webhook and worker paths have no such gate at all: see
the counterexample.) -/
theorem c1_api_output_moderation_gates_live (prompt : Str) (tmpl : Option Str)
    (env : AEnv) (s : AState) (p : AProject)
    (hmem : p ∈ (create_project prompt tmpl env s).1.projects)
    (hnot : p ∉ s.projects)
    (hlive : p.deployment_status = "live".toList) :
    filesModerated p.files = true := by
  unfold create_project at hmem
  rcases he : env.respText with e | txt <;> simp only [he] at hmem
  · simp only [List.mem_append, List.mem_singleton] at hmem
    rcases hmem with hin | hp
    · exact absurd hin hnot
    · rw [hp] at hlive
      exact absurd (show ("failed".toList : Str) = "live".toList from hlive)
        (by decide)
  · rcases hg : generate_project prompt txt env.tokens_used with e | result <;>
      simp only [hg] at hmem
    · simp only [List.mem_append, List.mem_singleton] at hmem
      rcases hmem with hin | hp
      · exact absurd hin hnot
      · rw [hp] at hlive
        exact absurd (show ("failed".toList : Str) = "live".toList from hlive)
          (by decide)
    · rcases hpg : pyGet result "files".toList with _ | fv <;>
        simp only [hpg] at hmem
      · simp only [List.mem_append, List.mem_singleton] at hmem
        rcases hmem with hin | hp
        · exact absurd hin hnot
        · rw [hp] at hlive
          exact absurd (show ("failed".toList : Str) = "live".toList from hlive)
            (by decide)
      · rcases hd : env.deployR with e | url_did <;> simp only [hd] at hmem
        · simp only [List.mem_append, List.mem_singleton] at hmem
          rcases hmem with hin | hp
          · exact absurd hin hnot
          · rw [hp] at hlive
            exact absurd (show ("failed".toList : Str) = "live".toList from hlive)
              (by decide)
        · simp only [List.mem_append, List.mem_singleton] at hmem
          rcases hmem with hin | hp
          · exact absurd hin hnot
          · rw [hp]
            exact generate_project_ok_files prompt txt env.tokens_used result fv hg hpg
/-- C1 witness: a clean prompt and clean generated files reach `live` on the
API path, and the committed project's files satisfy the moderation gate. -/
theorem c1_api_output_moderation_witness :
    filesModerated c1_wit_project.files = true :=
  c1_api_output_moderation_gates_live "a todo app".toList none c1_env c1_s0
    c1_wit_project
    (by rw [show (create_project "a todo app".toList none c1_env c1_s0).1.projects
              = [c1_wit_project] from rfl]
        exact List.mem_singleton_self _)
    (by simp [c1_s0])
    rfl
/-- C1 counterexample: the worker path (`MentionProcessor.handle_mention`)
runs no output moderation at all.  A generated file-set that the output
check rejects (`eval(atob(…))` matches `CODE_PATTERNS`) is persisted to the
public project and the project is marked `deployed`. -/
theorem c1_worker_deploys_unmoderated_counterexample :
    ((handle_mention c1_cx_mention c1_cx_env emptyWState).projects.map
        (fun p => (p.deployment_status, p.files)))
      = [("deployed".toList, c1_cx_files)]
    ∧ filesModerated c1_cx_files = false := ⟨rfl, by decide⟩
theorem replyCapInv_step (t : Str) (m : Mention) (env : WEnv) (s : WState)
    (h : replyCapInv t s) : replyCapInv t (handle_mention m env s) := by
  by_cases he : t = m.tweet_id
  · subst he
    by_cases hc : s.processed.contains m.tweet_id = true
    · rw [handle_mention_dedup m env s hc]
      exact h
    · have hnm : m.tweet_id ∉ s.processed := fun hm => hc (List.elem_iff.mpr hm)
      have h0 : repliesFor s.replies m.tweet_id = 0 := h.2 hnm
      constructor
      · have hle := handle_mention_replies_le m env s
        rw [h0] at hle
        omega
      · intro hn
        exact absurd (handle_mention_mem_processed m env s) hn
  · constructor
    · rw [handle_mention_replies_other m env s t he]
      exact h.1
    · intro hn
      rw [handle_mention_replies_other m env s t he]
      exact h.2 (fun hm => hn (handle_mention_processed_mono m env s t hm))
theorem replyCapInv_run (t : Str) (calls : List (Mention × WEnv)) (s : WState)
    (h : replyCapInv t s) : replyCapInv t (runWorker calls s) := by
  induction calls generalizing s with
  | nil => exact h
  | cons c rest ih =>
    obtain ⟨m, e⟩ := c
    exact ih (handle_mention m e s) (replyCapInv_step t m e s h)
/-- On the worker path the Redis dedup set alone bounds the outbound
replies: across any sequence of (sequential) `handle_mention` invocations,
at most two replies are ever sent for a given tweet. -/
theorem worker_reply_cap (t : Str) (calls : List (Mention × WEnv)) (s0 : WState)
    (h0 : repliesFor s0.replies t = 0) :
    repliesFor (runWorker calls s0).replies t ≤ 2 :=
  (replyCapInv_run t calls s0 ⟨by rw [h0]; omega, fun _ => h0⟩).1

theorem adminCapInv_step (t t2 : Str) (ok : Bool) (s : AdminReplyState)
    (h : adminCapInv t s) : adminCapInv t (admin_reply_to_tweet t2 ok s).1 := by
  unfold adminCapInv at h ⊢
  obtain ⟨hsc, hc2⟩ := h
  unfold admin_reply_to_tweet
  by_cases hcap : repliesFor s.reply_counts t2 ≥ MAX_REPLIES_PER_TWEET
  · rw [if_pos hcap]
    exact ⟨hsc, hc2⟩
  · rw [if_neg hcap]
    cases ok with
    | false => exact ⟨hsc, hc2⟩
    | true =>
      by_cases he : t = t2
      · subst he
        have hlt : repliesFor s.reply_counts t < MAX_REPLIES_PER_TWEET :=
          Nat.lt_of_not_le hcap
        constructor
        · show repliesFor (addReply s.sent t) t ≤ repliesFor (addReply s.reply_counts t) t
          rw [repliesFor_addReply_self, repliesFor_addReply_self]
          omega
        · show repliesFor (addReply s.reply_counts t) t ≤ MAX_REPLIES_PER_TWEET
          rw [repliesFor_addReply_self]
          omega
      · constructor
        · show repliesFor (addReply s.sent t2) t ≤ repliesFor (addReply s.reply_counts t2) t
          rw [repliesFor_addReply_other _ _ _ he, repliesFor_addReply_other _ _ _ he]
          exact hsc
        · show repliesFor (addReply s.reply_counts t2) t ≤ MAX_REPLIES_PER_TWEET
          rw [repliesFor_addReply_other _ _ _ he]
          exact hc2

theorem adminCapInv_run (t : Str) (calls : List (Str × Bool)) (s : AdminReplyState)
    (h : adminCapInv t s) : adminCapInv t (runAdminReplies calls s) := by
  induction calls generalizing s with
  | nil => exact h
  | cons c rest ih =>
    obtain ⟨t2, ok⟩ := c
    exact ih (admin_reply_to_tweet t2 ok s).1 (adminCapInv_step t t2 ok s h)

/-- C2 amended: the claimed mechanism exists, but only on the admin
pipeline: `admin.reply_to_tweet` is gated by the durable Redis counter
`heyclaude:reply_count:{tweet_id}`, bumped by an atomic `INCR` after each
2xx post, and once the count reaches `MAX_REPLIES_PER_TWEET = 2` no further
reply is sent for that event — so across any sequence of admin reply
attempts the published replies stay within the cap.  The worker path never
consults this counter and is bounded at two replies per event only by its
dedup set; the webhook path consults nothing at all and breaches the cap on
redelivery (see the counterexample).  (The admin gate itself is
read-then-send with the increment after the send, not a single
test-and-increment.) -/
theorem c2_reply_cap_mechanisms (t : Str) (adminCalls : List (Str × Bool))
    (workerCalls : List (Mention × WEnv)) (sA : AdminReplyState) (sW : WState)
    (hA1 : repliesFor sA.sent t = 0) (hA2 : repliesFor sA.reply_counts t = 0)
    (hW : repliesFor sW.replies t = 0) :
    repliesFor (runAdminReplies adminCalls sA).sent t ≤ MAX_REPLIES_PER_TWEET
    ∧ repliesFor (runWorker workerCalls sW).replies t ≤ 2 := by
  constructor
  · have hinv := adminCapInv_run t adminCalls sA
      ⟨by rw [hA1, hA2], by rw [hA2]; exact Nat.zero_le _⟩
    exact le_trans hinv.1 hinv.2
  · exact worker_reply_cap t workerCalls sW hW

/-- C2 witness: three admin reply attempts for one tweet (the third is
skipped by the counter) and two worker deliveries of the same mention both
stay within the cap of two. -/
theorem c2_reply_cap_mechanisms_witness :
    repliesFor (runAdminReplies
        [("t2".toList, true), ("t2".toList, true), ("t2".toList, true)]
        { reply_counts := [], sent := [] }).sent "t2".toList
      ≤ MAX_REPLIES_PER_TWEET
    ∧ repliesFor (runWorker [(c2_wit_mention, c2_wit_env), (c2_wit_mention, c2_wit_env)]
        emptyWState).replies "t2".toList ≤ 2 :=
  c2_reply_cap_mechanisms "t2".toList
    [("t2".toList, true), ("t2".toList, true), ("t2".toList, true)]
    [(c2_wit_mention, c2_wit_env), (c2_wit_mention, c2_wit_env)]
    { reply_counts := [], sent := [] } emptyWState rfl rfl rfl
/-- C2 counterexample: the webhook path keeps no reply counter and no dedup
set; redelivering the same source event runs `process_mention_build` twice
and sends four replies for one tweet, exceeding the claimed cap of two. -/
theorem c2_webhook_reply_cap_counterexample :
    repliesFor (process_mention_build "t9".toList "u9".toList "bob".toList
        "make a page".toList c2_cx_env2
        (process_mention_build "t9".toList "u9".toList "bob".toList
          "make a page".toList c2_cx_env1 emptyWebState)).replies "t9".toList = 4 :=
  rfl
/-- C6 amended: the worker path is idempotent — a repeated `handle_mention`
for the same `tweet_id` is a strict no-op (the whole state is unchanged),
and one invocation creates at most one project for its tweet.  The webhook
path is not deduplicated at all (see the counterexample). -/
theorem c6_worker_intake_idempotent :
    (∀ (m : Mention) (e1 e2 : WEnv) (s : WState),
        handle_mention m e2 (handle_mention m e1 s) = handle_mention m e1 s)
    ∧ ∀ (m : Mention) (e : WEnv) (s : WState),
        projectsForTweet s.projects m.tweet_id = 0 →
        projectsForTweet (handle_mention m e s).projects m.tweet_id ≤ 1 := by
  constructor
  · intro m e1 e2 s
    exact handle_mention_dedup m e2 _
      (List.elem_iff.mpr (handle_mention_mem_processed m e1 s))
  · intro m e s h
    exact handle_mention_projects_le m e s h
/-- C6 witness: re-delivering the same mention to the worker changes nothing
and the first delivery created at most one project. -/
theorem c6_worker_intake_idempotent_witness :
    handle_mention c6_wit_mention c6_wit_env
        (handle_mention c6_wit_mention c6_wit_env emptyWState)
      = handle_mention c6_wit_mention c6_wit_env emptyWState
    ∧ projectsForTweet (handle_mention c6_wit_mention c6_wit_env
          emptyWState).projects "t3".toList ≤ 1 :=
  ⟨c6_worker_intake_idempotent.1 c6_wit_mention c6_wit_env c6_wit_env emptyWState,
   c6_worker_intake_idempotent.2 c6_wit_mention c6_wit_env emptyWState rfl⟩
/-- C6 counterexample: `notifier_webhook` schedules `process_mention_build`
for every delivery with no dedup check, so a second invocation with the same
`tweet_id` creates a second project for the same inbound event. -/
theorem c6_webhook_duplicate_projects_counterexample :
    projectsForTweet (process_mention_build "t6".toList "u6".toList "carol".toList
        "make a site".toList c6_cx_env2
        (process_mention_build "t6".toList "u6".toList "carol".toList
          "make a site".toList c6_cx_env1 emptyWebState)).projects "t6".toList = 2 :=
  rfl
/-- C7 amended: `refine_project` never serializes or rejects on an in-flight
build.  Whenever the slug resolves to a project — whatever its
`deployment_status`, including `building` with another refine's task still
pending — the request is accepted (`{"status": "refining"}`) and one more
concurrently-running `do_refine` task is spawned. -/
theorem c7_refine_always_spawns (slug instr : Str) (cf : Option PyVal) (s : RState)
    (h : (s.projects.find? (fun p => p.slug == slug)).isSome = true) :
    (refine_project slug instr cf s).2 = RefResp.refining
    ∧ (refine_project slug instr cf s).1.tasks.length = s.tasks.length + 1 := by
  unfold refine_project
  rcases hf : s.projects.find? (fun p => p.slug == slug) with _ | p
  · rw [hf] at h
    exact absurd h (by simp)
  · simp [hf]
/-- C7 witness: with a refine already in flight (status `building`, one task
pending), the next request is still accepted and spawns another task. -/
theorem c7_refine_always_spawns_witness :
    (refine_project "p1".toList "second change".toList none c7_wit_state).2
      = RefResp.refining
    ∧ (refine_project "p1".toList "second change".toList none
        c7_wit_state).1.tasks.length = c7_wit_state.tasks.length + 1 :=
  c7_refine_always_spawns "p1".toList "second change".toList none c7_wit_state rfl
/-- C7 counterexample: two back-to-back refine requests for the same slug.
The first marks the project `building` and spawns its task; while that task
is still pending, the second request is neither rejected nor queued — it is
accepted and a second concurrent task is spawned, racing the first on the
same project's `files`. -/
theorem c7_concurrent_refine_counterexample :
    (refine_project "p1".toList "make it blue".toList none c7_cx_s0).2
      = RefResp.refining
    ∧ (c7_cx_s1.projects.map (fun p => p.deployment_status)) = ["building".toList]
    ∧ c7_cx_s1.tasks.length = 1
    ∧ (refine_project "p1".toList "make it red".toList none c7_cx_s1).2
        = RefResp.refining
    ∧ (refine_project "p1".toList "make it red".toList none c7_cx_s1).1.tasks.length
        = 2 :=
  ⟨rfl, rfl, rfl, rfl, rfl⟩
/-- C8 amended: the reconciliation pass marks `failed` exactly the projects
whose `deployment_status` is in `{building, deploying, pending}` and whose
`created_at` is more than one hour old, leaves the other projects as they
are — and does not touch the `builds` table at all: a stuck Build record
keeps its non-terminal status. -/
theorem c8_cleanup_sweeps_projects_only (now : Nat) (db : CState) :
    (∀ p ∈ db.projects, isStuck now p = true →
        { p with deployment_status := "failed".toList }
          ∈ (cleanup_failed_deployments now db).1.projects)
    ∧ (∀ p ∈ db.projects, isStuck now p = false →
        p ∈ (cleanup_failed_deployments now db).1.projects)
    ∧ (cleanup_failed_deployments now db).1.builds = db.builds := by
  refine ⟨fun p hp hs => ?_, fun p hp hs => ?_, rfl⟩
  · have hm := List.mem_map_of_mem
      (fun q => if isStuck now q then { q with deployment_status := "failed".toList }
                else q) hp
    simp only [hs, if_true] at hm
    exact hm
  · have hm := List.mem_map_of_mem
      (fun q => if isStuck now q then { q with deployment_status := "failed".toList }
                else q) hp
    simp only [hs, Bool.false_eq_true, if_false] at hm
    exact hm
/-- C8 witness: at `now = 7200` the hour-old `building` project is swept to
`failed`, the `live` one is untouched, and the builds table is unchanged. -/
theorem c8_cleanup_sweeps_projects_only_witness :
    ({ pid := 0, slug := "old".toList, deployment_status := "failed".toList,
       created_at := 0 } : CProject)
        ∈ (cleanup_failed_deployments 7200 c8_wit_db).1.projects
    ∧ ({ pid := 1, slug := "fresh".toList, deployment_status := "live".toList,
         created_at := 0 } : CProject)
        ∈ (cleanup_failed_deployments 7200 c8_wit_db).1.projects
    ∧ (cleanup_failed_deployments 7200 c8_wit_db).1.builds = c8_wit_db.builds :=
  ⟨(c8_cleanup_sweeps_projects_only 7200 c8_wit_db).1
      { pid := 0, slug := "old".toList, deployment_status := "building".toList,
        created_at := 0 } (by decide) (by decide),
   (c8_cleanup_sweeps_projects_only 7200 c8_wit_db).2.1
      { pid := 1, slug := "fresh".toList, deployment_status := "live".toList,
        created_at := 0 } (by decide) (by decide),
   (c8_cleanup_sweeps_projects_only 7200 c8_wit_db).2.2⟩
/-- C8 counterexample: after the sweep, the stuck project's status is
`failed` but the corresponding Build record still reads `generating` — the
claim that "the corresponding Build record's status" is also `failed` does
not hold, because `cleanup_failed_deployments` never updates `builds`. -/
theorem c8_build_left_nonterminal_counterexample :
    ((cleanup_failed_deployments 7200 c8_cx_db).1.projects.map
        (fun p => p.deployment_status)) = ["failed".toList]
    ∧ ((cleanup_failed_deployments 7200 c8_cx_db).1.builds.map (fun b => b.status))
        = ["generating".toList] := by decide
